import Mathlib

/-!
Shallow embedding of the log-analytics pipeline of
`code/server/tools/log_query_tool.py`, `code/server/tools/semantic_analysis_tool.py`
and `code/server/utils/retry_handler.py`.

Python dictionaries are modelled as ordered association lists over a small
universe of Python values (`PyVal`); stateful loops become explicit state
passing; exceptions become sum types.
-/

set_option maxRecDepth 4000

namespace LogAnalytics

/-- A small universe of Python values, sufficient for the dictionaries the
pipeline manipulates (`None`, booleans, integers, strings, lists, dicts). -/
inductive PyVal : Type where
  | none : PyVal
  | bool : Bool → PyVal
  | int : Int → PyVal
  | str : String → PyVal
  | list : List PyVal → PyVal
  | dict : List (String × PyVal) → PyVal

/-- Python dict: an insertion-ordered association list with unique keys. -/
abbrev PyDict := List (String × PyVal)

/-- Python truthiness (`bool(v)`). -/
def PyVal.truthy : PyVal → Bool
  | .none => false
  | .bool b => b
  | .int n => n ≠ 0
  | .str s => s ≠ ""
  | .list l => !l.isEmpty
  | .dict d => !d.isEmpty

/-- Python `key in d` for a dict. -/
def dictHas (d : PyDict) (k : String) : Bool :=
  d.any (fun p => p.1 == k)

/-- Python `d.get(k)`: the value at `k`, or `none` if absent (Lean `Option.none`). -/
def dictGet (d : PyDict) (k : String) : Option PyVal :=
  (d.find? (fun p => p.1 == k)).map Prod.snd

/-- Python `d.get(k, default)`. -/
def dictGetD (d : PyDict) (k : String) (default : PyVal) : PyVal :=
  (dictGet d k).getD default

/-- Python `d[k] = v`: replace in place if the key exists (keeping its position),
otherwise append, as Python dicts do. -/
def dictSet (d : PyDict) (k : String) (v : PyVal) : PyDict :=
  match d with
  | [] => [(k, v)]
  | (k0, v0) :: rest =>
      if k0 == k then (k0, v) :: rest else (k0, v0) :: dictSet rest k v

/-- Substring test on character lists: some tail of `s` starts with `pat`. -/
def listHasInfix (pat s : List Char) : Bool :=
  s.tails.any (fun t => pat.isPrefixOf t)

/-- Python `pat in s` for strings (substring containment). -/
def strContains (s pat : String) : Bool :=
  listHasInfix pat.data s.data

/-- Python `s.lower()`: lowercase each character. -/
def strToLower (s : String) : String :=
  ⟨s.data.map Char.toLower⟩

/-- Python `s.strip()`: drop whitespace from both ends. -/
def pyStrip (s : String) : String :=
  ⟨((s.data.dropWhile Char.isWhitespace).reverse.dropWhile
    Char.isWhitespace).reverse⟩

/-! ## Rate-limit retry wrapper (`utils/retry_handler.py`, `retry_on_rate_limit`) -/

/-- The throttling phrases the wrapper recognizes
(`retry_handler.py` lines 33-38). -/
def rateLimitPhrases : List String :=
  ["too many requests", "rate limit", "throttling", "quota exceeded"]

/-- The check `any(phrase in str(e).lower() for phrase in ...)`: case-insensitive
substring match against the throttling phrases. -/
def isRateLimitError (msg : String) : Bool :=
  rateLimitPhrases.any (fun phrase => strContains (strToLower msg) phrase)

/-- One invocation of the wrapped function: a returned value or a raised
exception carrying its message. -/
inductive CallResult (α : Type) : Type where
  | ret : α → CallResult α
  | exn : String → CallResult α
deriving DecidableEq, Repr

/-- Outcome of the wrapper: a returned value or a propagated exception. -/
inductive RetryOutcome (α : Type) : Type where
  | ret : α → RetryOutcome α
  | raised : String → RetryOutcome α
deriving DecidableEq, Repr

/-- The `for attempt in range(max_retries + 1)` loop of `retry_on_rate_limit`:
`calls n` is what the wrapped function does on its `n`-th invocation.
Returns the outcome together with the number of invocations made.
`fuel` counts the remaining iterations (`max_retries + 1 - attempt`). -/
def retryLoop {α : Type} (calls : Nat → CallResult α) (attempt : Nat) :
    (fuel : Nat) → RetryOutcome α × Nat
  | 0 => (.raised "unreachable", 0)
  | fuel + 1 =>
      match calls attempt with
      | .ret v => (.ret v, 1)
      | .exn m =>
          if isRateLimitError m then
            if fuel = 0 then
              -- attempt = max_retries: re-raise the throttling error
              (.raised m, 1)
            else
              let r := retryLoop calls (attempt + 1) fuel
              (r.1, r.2 + 1)
          else
            -- non-throttling error propagates immediately
            (.raised m, 1)

/-- The wrapper `retry_on_rate_limit(max_retries, wait_time)` applied to a function whose
successive invocations behave as `calls` (the fixed wait has no effect on the
control flow modelled here). -/
def retryOnRateLimit {α : Type} (maxRetries : Nat) (calls : Nat → CallResult α) :
    RetryOutcome α × Nat :=
  retryLoop calls 0 (maxRetries + 1)

/-! ## The query-synthesis retry loop
(`log_query_tool.py`, `LogQueryTool._continue_query_execution`, lines 356-494)

Each iteration of the `while True` loop generates a DSL query and executes it.
We model the environment's contribution to one iteration as an `Attempt`:
either DSL generation raises, or execution raises, or execution returns
search results.  The raw search result (`search_results`) is either falsy
(`None`/empty) or an envelope whose `error`/`status` fields drive the
`has_error` check and whose `hits.total.value` is the hit count. -/

/-- The value of `search_results` after `execute_search`. -/
inductive SearchResults : Type where
  /-- Case where `search_results` is falsy (`if search_results:` fails). -/
  | falsy : SearchResults
  /-- a dict envelope: `error` key (absent = `None`), `status` key value,
  and `hits.total.value`. -/
  | envelope (error : Option String) (status : Nat) (totalHits : Nat)
deriving DecidableEq, Repr

/-- What the environment does on one loop iteration. -/
inductive Attempt : Type where
  /-- Generation raised inside `_generate_intelligent_query_dsl`: `dsl_query` keeps its previous
  value and control reaches the `except Exception` handler. -/
  | genExn (msg : String)
  /-- generation produced `dsl`, then `execute_search` raised. -/
  | execExn (dsl : String) (msg : String)
  /-- generation produced `dsl`, execution returned `res`. -/
  | result (dsl : String) (res : SearchResults)
deriving DecidableEq, Repr

/-- Mutable locals of the loop (lines 351-359). -/
structure LoopState : Type where
  errorRetryCount : Nat
  emptyRetryCount : Nat
  dslQuery : String
  lastError : String
deriving DecidableEq, Repr

/-- Initial state: counters 0, `dsl_query = ''`, `last_error = ''`. -/
def initState : LoopState := ⟨0, 0, "", ""⟩

/-- Constant `max_error_retries = 5` (line 358). -/
def maxErrorRetries : Nat := 5

/-- Constant `max_empty_retries = 3` (line 359). -/
def maxEmptyRetries : Nat := 3

/-- Progress events the loop emits through `_emit_text` / `_emit_json`
(stage "DSL生成"), one constructor per emit site in lines 364-494. -/
inductive LoopEvent : Type where
  /-- Notice "查询结果为空，正在重试 (n/3)" (processing) -/
  | emptyRetrying (n : Nat)
  /-- Notice "查询结果为空，已重试3次" (error) — emitted when the empty budget is
  exhausted, right before falling through to the success path. -/
  | emptyExhausted
  /-- Notice "查询执行失败，正在重试 (n/5): msg" (processing) -/
  | errorRetrying (n : Nat) (msg : String)
  /-- Notice "查询执行失败，已重试5次: msg" (error) -/
  | errorExhausted (msg : String)
  /-- Notice "查询返回空结果，正在重试 (n/5)" (processing) -/
  | noResultRetrying (n : Nat)
  /-- Notice "查询返回空结果，已重试5次" (error) -/
  | noResultExhausted
  /-- Notice "查询异常，正在重试 (n/5): msg" (processing) -/
  | exceptionRetrying (n : Nat) (msg : String)
  /-- Notice "查询异常，已重试5次: msg" (error) -/
  | exceptionExhausted (msg : String)
  /-- success json `{"dsl_query": dsl, "total_hits": total, ...}` -/
  | acceptedJson (dsl : String) (total : Nat)
deriving DecidableEq, Repr

/-- How the loop ends. -/
inductive LoopResult : Type where
  /-- a `return {"success": False, "error": err, ..., "dsl_query": dsl}` -/
  | failure (error : String) (dsl : String)
  /-- Break: the loop exits and the pipeline continues with the accepted
  result (`total` hits); used both for `total > 0` and for the exhausted
  empty budget. -/
  | success (dsl : String) (total : Nat)
  /-- model artifact: the supplied attempt list ran out before the loop
  exited. -/
  | outOfAttempts
deriving DecidableEq, Repr

/-- Result of one loop iteration: continue with a new state, or leave. -/
inductive StepRes : Type where
  | next (s : LoopState) : StepRes
  | done (r : LoopResult) : StepRes
deriving DecidableEq, Repr

/-- One iteration of the `while True` body (lines 364-494) on attempt `a`
from state `s`, with the events it emits. -/
def loopStep (a : Attempt) (s : LoopState) : StepRes × List LoopEvent :=
  match a with
  | .genExn m =>
      -- `except Exception` handler, lines 470-494; dsl_query is unchanged
      let cnt := s.errorRetryCount + 1
      if cnt ≤ maxErrorRetries then
        (.next { s with errorRetryCount := cnt, lastError := m },
         [.exceptionRetrying cnt m])
      else
        (.done (.failure (s!"查询异常，已重试{maxErrorRetries}次: {m}") s.dslQuery),
         [.exceptionExhausted m])
  | .execExn dsl m =>
      -- same handler, but dsl_query was reassigned before the raise
      let cnt := s.errorRetryCount + 1
      if cnt ≤ maxErrorRetries then
        (.next { s with errorRetryCount := cnt, dslQuery := dsl, lastError := m },
         [.exceptionRetrying cnt m])
      else
        (.done (.failure (s!"查询异常，已重试{maxErrorRetries}次: {m}") dsl),
         [.exceptionExhausted m])
  | .result dsl res =>
      match res with
      | .falsy =>
          -- `else` branch, lines 444-468: falsy results consume error budget
          let cnt := s.errorRetryCount + 1
          if cnt ≤ maxErrorRetries then
            (.next { s with errorRetryCount := cnt, dslQuery := dsl,
                            lastError := "查询返回空结果" },
             [.noResultRetrying cnt])
          else
            (.done (.failure (s!"查询返回空结果，已重试{maxErrorRetries}次") dsl),
             [.noResultExhausted])
      | .envelope error status totalHits =>
          -- has_error: `error is not None or status >= 400` (line 390)
          if error.isSome || 400 ≤ status then
            -- lines 418-443
            let cnt := s.errorRetryCount + 1
            let errorMsg := error.getD "未知错误"
            if cnt ≤ maxErrorRetries then
              (.next { s with errorRetryCount := cnt, dslQuery := dsl,
                              lastError := s!"查询执行失败: {errorMsg}" },
               [.errorRetrying cnt errorMsg])
            else
              (.done (.failure
                  (s!"查询执行失败，已重试{maxErrorRetries}次: {errorMsg}") dsl),
               [.errorExhausted errorMsg])
          else if totalHits = 0 then
            -- lines 395-417
            let cnt := s.emptyRetryCount + 1
            if cnt ≤ maxEmptyRetries then
              (.next { s with emptyRetryCount := cnt, dslQuery := dsl,
                              lastError := s!"查询结果为空，第{cnt}次重试" },
               [.emptyRetrying cnt])
            else
              -- budget exhausted: emit the error notice, then FALL THROUGH to
              -- the success emit and `break` (lines 407-417)
              (.done (.success dsl 0), [.emptyExhausted, .acceptedJson dsl 0])
          else
            -- total_hits > 0: success emit and `break` (lines 411-417)
            (.done (.success dsl totalHits), [.acceptedJson dsl totalHits])

/-- The whole loop, run on a finite list of attempts. -/
def runLoop : List Attempt → LoopState → LoopResult × List LoopEvent
  | [], _ => (.outOfAttempts, [])
  | a :: rest, s =>
      match loopStep a s with
      | (.next s1, evs) =>
          let (r, evs1) := runLoop rest s1
          (r, evs ++ evs1)
      | (.done r, evs) => (r, evs)

/-! ## Index selection (`LogQueryTool._select_best_index`, lines 577-691) -/

/-- What the selection model's response parses to (lines 661-672): either the
regex/`json.loads` chain produced no JSON object, or it produced one whose
`selected_index` key holds the given optional value
(`result.get("selected_index")`). -/
inductive SelectionParse : Type where
  | noJson : SelectionParse
  | parsed (selectedIndex : Option String) : SelectionParse
deriving DecidableEq, Repr

/-- The selector `_select_best_index`, instrumented: the model invocation is an oracle from
the prompt inputs (the index list) to the parsed response; the returned flag
records whether the model was invoked at all.  Control flow of lines 587-691:
empty index list returns `None` before any model call; a parsed name is
returned only if it is literally a member (`selected_index in indices`,
case-sensitive), otherwise `None`; no fallback choice is ever made. -/
def selectBestIndex (indices : List String)
    (model : List String → SelectionParse) : Option String × Bool :=
  if indices.isEmpty then
    (none, false)
  else
    match model indices with
    | .noJson => (none, true)
    | .parsed selected =>
        match selected with
        | some name => (if name ∈ indices then some name else none, true)
        | none => (none, true)       -- `None in indices` is False in Python

/-! ## Most-similar-sample selection
(`LogQueryTool._select_most_similar_sample`, lines 693-773, and its caller,
lines 291-304) -/

/-- A stored example query; only the description participates in selection. -/
structure Sample : Type where
  description : String
  queryBody : String
deriving DecidableEq, Repr

/-- The number parsed from the selection model's response text: the first
`\b(\d+)\b` match, if any (a nonnegative integer by construction). -/
abbrev SampleAnswer := Option Nat

/-- The selector `_select_most_similar_sample` (lines 704-769): with ≤ 1 sample, return the
first sample if any; otherwise ask the model and take `samples[n]` when the
parsed number `n` is in range, falling back to `samples[0]` when it is out of
range or no number could be parsed. -/
def selectMostSimilarSample (samples : List Sample) (answer : SampleAnswer) :
    Option Sample :=
  if samples.length ≤ 1 then
    samples.head?
  else
    match answer with
    | some n =>
        if h : n < samples.length then some (samples.get ⟨n, h⟩)
        else samples.head?           -- out of range: `return samples[0]`
    | none => samples.head?          -- unparseable: `return samples[0]`

/-- The caller's reduction of `raw_samples` (lines 291-304): with more than one
sample, replace the list by the single selected sample; keep the full list
only if selection returned nothing. -/
def reduceSamples (samples : List Sample) (answer : SampleAnswer) : List Sample :=
  if samples.length > 1 then
    match selectMostSimilarSample samples answer with
    | some s => [s]
    | none => samples
  else samples

/-! ## Chart validation and repair
(`LogQueryTool._process_multi_chart_data` and helpers, lines 2049-2301)

A chart is a dict; we model the keys the validators touch as optional fields.
Array fields are represented as lists: the list-coercion step of
`_validate_chart_data` (lines 2120-2137) turns any non-list value into a
list before the type-specific validators run, so it is the identity on this
space. -/

/-- One chart descriptor (the dict the model returned for one chart). -/
structure Chart : Type where
  chartType : Option String
  title : Option String
  xAxis : Option (List PyVal)
  yAxis : Option (List PyVal)
  values : Option (List PyVal)
  names : Option (List PyVal)
  data : Option PyVal
  value : Option PyVal
  chartId : Option String
  priority : Option Nat
  description : Option String

/-- Python `not chart.get(field)`: the key is absent or holds an empty array. -/
def optFalsy : Option (List PyVal) → Bool
  | Option.none => true
  | some l => l.isEmpty

/-- Python `item.get(k, default)` where `item` is expected to be a dict. -/
def pyItemGet (item : PyVal) (k : String) (default : PyVal) : PyVal :=
  match item with
  | .dict d => dictGetD d k default
  | _ => default

/-- Source `_generate_xy_from_data` (lines 2264-2280).  Its internal
`except Exception` swallows every failure, leaving the chart unchanged; a
comprehension that would raise partway (a non-dict item after a dict first
item) assigns nothing. -/
def generateXYFromData (c : Chart) : Chart :=
  match c.data with
  | some (.list items) =>
      match items with
      | [] => c
      | d0 :: _ =>
          match d0 with
          | .dict kvs =>
              match kvs with
              | (k0, _) :: (k1, _) :: _ =>
                  if items.all (fun it => match it with | .dict _ => true | _ => false) then
                    { c with
                      xAxis := some (items.map (fun it => pyItemGet it k0 (.str ""))),
                      yAxis := some (items.map (fun it => pyItemGet it k1 (.int 0))) }
                  else c
              | _ => c               -- fewer than two keys: nothing assigned
          | _ =>
              { c with
                xAxis := some ((List.range items.length).map (fun i => .int i)),
                yAxis := some items }
  | _ => c

/-- Truncate a pair of arrays to the shorter length when both are non-empty
and of different lengths (the repair of lines 2172-2190 / 2202-2209). -/
def truncatePair (a b : List PyVal) : List PyVal × List PyVal :=
  if a.length ≠ 0 ∧ b.length ≠ 0 ∧ a.length ≠ b.length then
    let m := min a.length b.length
    (a.take m, b.take m)
  else (a, b)

/-- Source `_validate_xy_chart` (lines 2159-2190); `Option.none` models the raised
`ValueError`.  The truncations are guarded by the `has_xy` /
`has_values_names` booleans computed BEFORE the data-generation branch, as in
the source. -/
def validateXYChart (c : Chart) : Option Chart :=
  let hasXY := c.xAxis.isSome && c.yAxis.isSome
  let hasVN := c.values.isSome && c.names.isSome
  let step1 : Option Chart :=
    if !hasXY && !hasVN then
      match c.data with
      | some (.list _) => some (generateXYFromData c)
      | _ => Option.none
    else some c
  match step1 with
  | Option.none => Option.none
  | some c1 =>
      let c2 :=
        if hasXY then
          let p := truncatePair (c1.xAxis.getD []) (c1.yAxis.getD [])
          { c1 with xAxis := some p.1, yAxis := some p.2 }
        else c1
      let c3 :=
        if hasVN then
          let p := truncatePair (c2.values.getD []) (c2.names.getD [])
          { c2 with values := some p.1, names := some p.2 }
        else c2
      some c3

/-- Source `_validate_pie_chart` (lines 2192-2209). -/
def validatePieChart (c : Chart) : Option Chart :=
  let step1 : Option Chart :=
    if !(c.values.isSome && c.names.isSome) then
      if c.xAxis.isSome && c.yAxis.isSome then
        some { c with names := c.xAxis, values := c.yAxis }
      else Option.none
    else some c
  match step1 with
  | Option.none => Option.none
  | some c1 =>
      let p := truncatePair (c1.values.getD []) (c1.names.getD [])
      some { c1 with values := some p.1, names := some p.2 }

/-- Source `_validate_histogram_chart` (lines 2211-2218). -/
def validateHistogramChart (c : Chart) : Option Chart :=
  if optFalsy c.xAxis then
    if !optFalsy c.values then some { c with xAxis := c.values }
    else Option.none
  else some c

/-- Source `_validate_heatmap_chart` (lines 2220-2225). -/
def validateHeatmapChart (c : Chart) : Option Chart :=
  if optFalsy c.xAxis || optFalsy c.yAxis || optFalsy c.values then Option.none
  else some c

/-- Source `_validate_info_chart` (lines 2227-2235). -/
def validateInfoChart (chartType : String) (c : Chart) : Option Chart :=
  if chartType = "table" then
    if c.data.isNone && c.xAxis.isNone then Option.none else some c
  else if chartType = "metric" then
    if c.value.isNone && c.values.isNone then
      some { c with value := some (.str (c.title.getD "N/A")) }
    else some c
  else some c

/-- Source `_fix_chart_data` (lines 2242-2262). -/
def fixChartData (chartType : String) (c : Chart) : Chart :=
  if chartType = "bar" ∨ chartType = "line" ∨ chartType = "scatter" ∨
      chartType = "area" then
    let c1 := if optFalsy c.xAxis && optFalsy c.names then
        { c with xAxis := some [.str "数据"] } else c
    if optFalsy c1.yAxis && optFalsy c1.values then
      { c1 with yAxis := some [.int 1] } else c1
  else if chartType = "pie" then
    let c1 := if optFalsy c.values then { c with values := some [.int 1] } else c
    if optFalsy c1.names then { c1 with names := some [.str "数据"] } else c1
  else if chartType = "histogram" then
    if optFalsy c.xAxis then { c with xAxis := some [.int 1] } else c
  else c

/-- Valid chart types (line 2113). -/
def validChartTypes : List String :=
  ["bar", "line", "pie", "scatter", "histogram", "area", "heatmap", "table",
   "metric", "text"]

/-- Source `_validate_chart_data` (lines 2103-2157).  `Option.none` models the only
uncaught `ValueError`: a missing `chart_type` or `title` key.  Type-specific
`ValueError`s are caught and turned into `_fix_chart_data` (lines 2154-2157);
all raises in the type-specific validators occur before any mutation, so the
fix applies to the chart as it entered them. -/
def validateChartData (c : Chart) : Option Chart :=
  match c.chartType, c.title with
  | some ctRaw, some _ =>
      let lowered := strToLower ctRaw
      let (c1, ct) :=
        if lowered ∈ validChartTypes then (c, lowered)
        else ({ c with chartType := some "bar" }, "bar")
      let specific : Option Chart :=
        if ct = "bar" ∨ ct = "line" ∨ ct = "scatter" ∨ ct = "area" then
          validateXYChart c1
        else if ct = "pie" then validatePieChart c1
        else if ct = "histogram" then validateHistogramChart c1
        else if ct = "heatmap" then validateHeatmapChart c1
        else if ct = "table" ∨ ct = "metric" ∨ ct = "text" then
          validateInfoChart ct c1
        else some c1
      some (match specific with
        | some c2 => c2
        | Option.none => fixChartData ct c1)
  | _, _ => Option.none

/-- An element of the model's `charts` list: dicts become `Chart`s, anything
else is skipped by the `isinstance(chart, dict)` check (line 2057). -/
inductive ChartEntry : Type where
  | nonDict (v : PyVal)
  | obj (c : Chart)

/-- The parsed chart response handed to `_process_multi_chart_data`: either it
has a `charts` list (multi format) or the whole object is treated as a single
chart (lines 2053 and 2084-2097). -/
inductive ChartInput : Type where
  | multi (charts : List ChartEntry) (analysisSummary : Option String)
  | single (c : Chart)

/-- The validated multi-chart envelope the summarizer returns. -/
structure MultiChartData : Type where
  charts : List Chart
  totalCharts : Nat
  primaryChart : Nat
  analysisSummary : String

/-- The default placeholder (`_get_default_multi_chart_data`, lines
2282-2301): exactly one bar chart. -/
def defaultChart : Chart :=
  { chartType := some "bar", title := some "查询结果统计",
    xAxis := some [.str "查询结果"], yAxis := some [.int 1],
    values := some [.int 1], names := some [.str "查询结果"],
    data := Option.none, value := Option.none,
    chartId := some "chart_1", priority := some 1,
    description := some "默认图表数据" }

/-- Lines 2296-2301. -/
def defaultMultiChartData : MultiChartData :=
  { charts := [defaultChart], totalCharts := 1, primaryChart := 0,
    analysisSummary := "默认数据可视化" }

/-- The `for i, chart in enumerate(...)` validation of lines 2056-2071:
non-dicts and charts whose validation raises are skipped; the survivors get
default `chart_id` / `priority` keyed on their position. -/
def processEntries : List ChartEntry → Nat → List Chart
  | [], _ => []
  | .nonDict _ :: rest, i => processEntries rest (i + 1)
  | .obj c :: rest, i =>
      match validateChartData c with
      | Option.none => processEntries rest (i + 1)
      | some c1 =>
          let c2 := if c1.chartId.isNone then
              { c1 with chartId := some s!"chart_{i + 1}" } else c1
          let c3 := if c2.priority.isNone then
              { c2 with priority := some (i + 1) } else c2
          c3 :: processEntries rest (i + 1)

/-- Source `_process_multi_chart_data` (lines 2049-2101).  If no chart survives
validation — or the single-chart form fails validation, which raises into the
`except` of line 2099 — the default placeholder is returned. -/
def processMultiChartData : ChartInput → MultiChartData
  | .multi entries summary =>
      let validated := processEntries entries 0
      if validated.isEmpty then defaultMultiChartData
      else
        { charts := validated, totalCharts := validated.length,
          primaryChart := 0, analysisSummary := summary.getD "数据可视化分析" }
  | .single c =>
      match validateChartData c with
      | Option.none => defaultMultiChartData
      | some c1 =>
          let c2 := { c1 with chartId := some "chart_1", priority := some 1 }
          { charts := [c2], totalCharts := 1, primaryChart := 0,
            analysisSummary := c2.description.getD "数据可视化分析" }

/-- How the chart model's free-text response parsed
(`_extract_and_parse_json`): either no JSON object could be recovered, or it
parsed to a `ChartInput`. -/
inductive ChartParse : Type where
  | unparseable
  | parsed (input : ChartInput)

/-- Source `_generate_intelligent_chart_data` (lines 1247-1349) after the model call:
an unparseable response raises and the handler returns the default placeholder
(lines 1338-1349); otherwise the parsed object is validated. -/
def generateIntelligentChartData : ChartParse → MultiChartData
  | .unparseable => defaultMultiChartData
  | .parsed ci => processMultiChartData ci

/-! ## Analysis-mode classification
(`LogQueryTool._determine_analysis_mode`, lines 1459-1558) -/

/-- One entry of the `analysis_modes` table. -/
structure AnalysisMode : Type where
  name : String
  keywords : List String
  focusAreas : List String
deriving DecidableEq, Repr

/-- The `analysis_modes` dict (lines 1481-1514), in declaration order. -/
def analysisModes : List AnalysisMode :=
  [⟨"performance_analysis",
    ["性能", "响应时间", "延迟", "latency", "response time", "吞吐量",
     "throughput", "qps", "tps", "慢查询", "slow"],
    ["性能指标", "响应时间分析", "吞吐量统计", "资源利用率", "性能瓶颈识别"]⟩,
   ⟨"error_analysis",
    ["错误", "异常", "error", "exception", "失败", "failed", "5xx", "4xx",
     "timeout", "超时"],
    ["错误统计", "异常模式", "错误分布", "根因分析", "影响评估"]⟩,
   ⟨"security_analysis",
    ["安全", "攻击", "威胁", "security", "attack", "threat", "入侵",
     "intrusion", "恶意", "malicious", "sql注入", "xss"],
    ["安全事件", "威胁检测", "攻击模式", "风险评估", "安全建议"]⟩,
   ⟨"access_analysis",
    ["访问", "请求", "access", "request", "用户", "user", "流量", "traffic",
     "ip", "地理位置"],
    ["访问统计", "用户行为", "流量分析", "地理分布", "访问模式"]⟩,
   ⟨"business_analysis",
    ["业务", "订单", "交易", "business", "order", "transaction", "转化",
     "conversion", "收入", "revenue"],
    ["业务指标", "转化分析", "用户行为", "业务趋势", "收入影响"]⟩,
   ⟨"system_analysis",
    ["系统", "服务", "system", "service", "资源", "resource", "cpu", "memory",
     "磁盘", "disk", "网络", "network"],
    ["系统状态", "资源监控", "服务健康", "容量规划", "系统优化"]⟩,
   ⟨"audit_analysis",
    ["审计", "合规", "audit", "compliance", "权限", "permission", "操作记录",
     "operation log"],
    ["操作审计", "权限分析", "合规检查", "操作统计", "风险识别"]⟩,
   ⟨"application_analysis",
    ["应用", "功能", "application", "function", "模块", "module", "接口",
     "api", "服务调用"],
    ["应用性能", "功能使用", "接口调用", "模块分析", "应用健康"]⟩]

/-- The per-mode score of lines 1518-1530: for each keyword of the mode, +2
if it occurs in the lowercased query, +1.5 if it occurs in the lowercased log
type, +1 if it occurs in the space-joined lowercased keyword entities. -/
def modeScore (queryLower logType keywordsStr : String) (m : AnalysisMode) : ℚ :=
  m.keywords.foldl
    (fun acc kw =>
      acc + (if strContains queryLower kw then 2 else 0)
          + (if strContains logType kw then 3 / 2 else 0)
          + (if strContains keywordsStr kw then 1 else 0)) 0

/-- The result dict of `_determine_analysis_mode`. -/
structure ModeResult : Type where
  mode : String
  focusAreas : List String
  confidence : ℚ
deriving DecidableEq, Repr

/-- The zero-score default (lines 1544-1548). -/
def comprehensiveResult : ModeResult :=
  ⟨"comprehensive_analysis",
   ["数据概览", "关键指标", "趋势分析", "异常检测", "模式识别", "业务影响"],
   1 / 2⟩

/-- Source `_determine_analysis_mode` (lines 1459-1548).  `max(mode_scores.items(),
key=lambda x: x[1])` keeps the first maximal entry in insertion order, which
is exactly `List.argmax` over the declaration-ordered mode table.  The
`confidence` is `min(best_score / 5.0, 1.0)`. -/
def determineAnalysisMode (queryPrompt logType : String)
    (rawKeywords : List String) : ModeResult :=
  let queryLower := strToLower queryPrompt
  let lt := strToLower logType
  let keywordsStr := String.intercalate " " (rawKeywords.map strToLower)
  let score := modeScore queryLower lt keywordsStr
  match analysisModes.argmax score with
  | some best =>
      if 0 < score best then
        ⟨best.name, best.focusAreas, min (score best / 5) 1⟩
      else comprehensiveResult
  | Option.none => comprehensiveResult    -- unreachable: the table is nonempty

/-! ## Intent-analyzer JSON handling
(`SemanticAnalysisTool._perform_semantic_analysis`, lines 255-345 of
`semantic_analysis_tool.py`) -/

/-- The required keys of line 269. -/
def requiredFields : List String :=
  ["intent_type", "confidence", "time_range", "entities", "rewritten_query"]

/-- How the model response's JSON extraction went: no `{...}` match in the
text, a `json.loads` failure, or a decoded object. -/
inductive SemanticParse : Type where
  | noJson
  | jsonError (msg : String)
  | decoded (obj : PyDict)

/-- What `_perform_semantic_analysis` does after the model call. -/
inductive SemanticOutcome : Type where
  /-- a returned dict with `"success": False` and the given error text;
  `partialResult` is the `partial_result` key when present. -/
  | failure (error : String) (partialResult : Option PyDict)
  /-- an uncaught `AttributeError`: `entities.get` on a non-dict `entities`
  value (line 308 reads the old value after line 301 replaced it). -/
  | pyError
  /-- a returned dict with `"success": True`. -/
  | ok (result : PyDict)

/-- The `time_range` shape fix of lines 290-296: replace a non-dict
`time_range` value by the null-filled dict. -/
def fixTimeRange (d : PyDict) : PyDict :=
  match dictGetD d "time_range" (.dict []) with
  | .dict _ => d
  | _ => dictSet d "time_range"
      (.dict [("start_time", .none), ("end_time", .none),
              ("original_description", .none)])

/-- The `keywords` shape fix of lines 307-309: when `entities["keywords"]`
is not a list, set it to `[]` inside the entities dict of `d`. -/
def fixKeywords (d : PyDict) (ents : PyDict) : PyDict :=
  match dictGet ents "keywords" with
  | some (.list _) => d
  | _ => dictSet d "entities" (.dict (dictSet ents "keywords" (.list [])))

/-- Lines 316-318: default `rewritten_query` (and its reason) when still
absent. -/
def addRewrittenDefault (query : String) (d : PyDict) : PyDict :=
  if dictHas d "rewritten_query" then d
  else dictSet (dictSet d "rewritten_query" (.str query))
    "rewrite_reason" (.str "查询已足够明确，无需改写")

/-- Lines 321-322: default `rewrite_reason` when absent. -/
def addRewriteReason (d : PyDict) : PyDict :=
  if dictHas d "rewrite_reason" then d
  else dictSet d "rewrite_reason" (.str "基于查询内容进行标准化改写")

/-- Lines 324-325: default `context_used` when absent. -/
def addContextUsed (hasHistory : Bool) (d : PyDict) : PyDict :=
  if dictHas d "context_used" then d
  else dictSet d "context_used"
    (.str (if hasHistory then "使用了对话历史上下文" else "无对话上下文"))

/-- Lines 311-327: add `query`, `success` and the default bookkeeping keys,
in source order. -/
def addBookkeeping (query : String) (hasHistory : Bool) (d : PyDict) : PyDict :=
  addContextUsed hasHistory (addRewriteReason (addRewrittenDefault query
    (dictSet (dictSet d "query" (.str query)) "success" (.bool true))))

/-- Lines 289-327, after the required-key check passed: the
`time_range`/`entities` shape fixes then the bookkeeping keys.  A non-dict
`entities` value raises `AttributeError` at line 308 (the code reads the old
value after line 301 replaced it), modelled as `pyError`. -/
def processValidResult (query : String) (hasHistory : Bool) (d : PyDict) :
    SemanticOutcome :=
  match dictGetD (fixTimeRange d) "entities" (.dict []) with
  | .dict ents =>
      .ok (addBookkeeping query hasHistory (fixKeywords (fixTimeRange d) ents))
  | _ => .pyError

/-- Lines 268-327: the required-key check with the `rewritten_query`-only
default; any other key still missing is a failure carrying the partial
object. -/
def processDecodedResult (query : String) (hasHistory : Bool)
    (result0 : PyDict) : SemanticOutcome :=
  let missing1 := requiredFields.filter (fun f => !dictHas result0 f)
  let result1 :=
    if missing1.contains "rewritten_query" then
      dictSet (dictSet result0 "rewritten_query" (.str query))
        "rewrite_reason" (.str "未进行改写")
    else result0
  let missing2 := requiredFields.filter (fun f => !dictHas result1 f)
  if !missing2.isEmpty then
    let joined := String.intercalate ", " missing2
    .failure (s!"语义分析结果不完整，缺少字段: {joined}") (some result1)
  else processValidResult query hasHistory result1

/-- The whole parse stage (lines 255-345). -/
def performSemanticAnalysisParse (query : String) (hasHistory : Bool) :
    SemanticParse → SemanticOutcome
  | .noJson =>
      .failure "语义分析失败：AI响应中未找到有效的JSON格式结果" Option.none
  | .jsonError m =>
      .failure (s!"语义分析失败：JSON解析错误 - {m}") Option.none
  | .decoded obj => processDecodedResult query hasHistory obj

/-! ## The `query_logs` entry point
(`LogQueryTool.query_logs`, lines 52-128) -/

/-- Outcome of the entry-point validation: an early failure dict with
`success: False`, or the call into `_execute_query_pipeline` with the
extracted rewritten query and the hydrated `semantic_result`. -/
inductive QueryLogsOutcome : Type where
  | paramFailure (error : String)
  | proceed (rewrittenQuery : PyVal) (semanticResult : PyDict)

/-- The in-place hydration of lines 119-125: fill `time_range`, `entities`
and `intent_type` with defaults when absent. -/
def hydrateSemanticResult (d : PyDict) : PyDict :=
  let d1 := if dictHas d "time_range" then d
    else dictSet d "time_range" (.dict [])
  let d2 := if dictHas d1 "entities" then d1
    else dictSet d1 "entities" (.dict [])
  if dictHas d2 "intent_type" then d2
  else dictSet d2 "intent_type" (.str "log_query")

/-- Source `query_logs` up to the pipeline call (lines 63-128).  `query` and
`semantic_result` are arbitrary Python values (`is None` is `PyVal.none`). -/
def queryLogs (query semanticResult : PyVal) : QueryLogsOutcome :=
  -- `if not query or not isinstance(query, str)`
  if !query.truthy then .paramFailure "query参数必须是非空字符串"
  else
    match query with
    | .str s =>
        if pyStrip s = "" then .paramFailure "query参数不能为空"
        else
          match semanticResult with
          | .none =>
              .paramFailure "semantic_result参数不能为None，请提供有效的语义分析结果"
          | .dict d =>
              if d.isEmpty then
                .paramFailure "semantic_result参数不能为空字典，必须包含有效的语义分析数据"
              else
                -- `if not semantic_result.get("success", True)`; the
                -- rewritten query was extracted at line 107 already
                if !(dictGetD d "success" (.bool true)).truthy then
                  .paramFailure "语义分析结果无效，请先进行成功的语义分析"
                else .proceed (dictGetD d "rewritten_query" (.str (pyStrip s)))
                  (hydrateSemanticResult d)
          | _ => .paramFailure "semantic_result参数必须是字典类型"
    | _ => .paramFailure "query参数必须是非空字符串"

/-! ## Outcome classifiers for the retry loop

ERROR / EMPTY / ACCEPTED in the sense of the loop's branch structure
(lines 386-494). -/

/-- An ERROR outcome: an exception, a falsy `search_results`, or an envelope
with an `error` key or `status >= 400`. -/
def Attempt.isErrorOutcome : Attempt → Bool
  | .genExn _ => true
  | .execExn _ _ => true
  | .result _ .falsy => true
  | .result _ (.envelope e st _) => e.isSome || 400 ≤ st

/-- An EMPTY outcome: a healthy envelope with zero total hits. -/
def Attempt.isEmptyOutcome : Attempt → Bool
  | .result _ (.envelope e st t) => e.isNone && st < 400 && t = 0
  | _ => false

/-- An ACCEPTED outcome: a healthy envelope with positive total hits. -/
def Attempt.isAcceptedOutcome : Attempt → Bool
  | .result _ (.envelope e st t) => e.isNone && st < 400 && 0 < t
  | _ => false

/-- The value of `dsl_query` after the generation step of an attempt, given
its previous value: a generation exception leaves it unchanged. -/
def Attempt.attemptDsl : Attempt → String → String
  | .genExn _, prev => prev
  | .execExn d _, _ => d
  | .result d _, _ => d

/-- The `last_error` detail an ERROR outcome records. -/
def Attempt.attemptErrorDetail : Attempt → String
  | .genExn m => m
  | .execExn _ m => m
  | .result _ .falsy => "查询返回空结果"
  | .result _ (.envelope e _ _) =>
      let errorMsg := e.getD "未知错误"
      s!"查询执行失败: {errorMsg}"

/-- The error text of the failure dict an ERROR outcome returns when the
error budget is exceeded. -/
def Attempt.attemptFailureMsg : Attempt → String
  | .genExn m => s!"查询异常，已重试{maxErrorRetries}次: {m}"
  | .execExn _ m => s!"查询异常，已重试{maxErrorRetries}次: {m}"
  | .result _ .falsy => s!"查询返回空结果，已重试{maxErrorRetries}次"
  | .result _ (.envelope e _ _) =>
      let errorMsg := e.getD "未知错误"
      s!"查询执行失败，已重试{maxErrorRetries}次: {errorMsg}"

/-- The `last_error` text of an EMPTY retry, "查询结果为空，第n次重试". -/
def msgEmptyRetry (n : Nat) : String := s!"查询结果为空，第{n}次重试"

/-- A chart entry that fails validation in the multi-chart loop: a non-dict
element (skipped by `isinstance`) or a chart missing `chart_type` or `title`
(the only uncaught `ValueError` of `_validate_chart_data`). -/
def chartEntryInvalid : ChartEntry → Bool
  | .nonDict _ => true
  | .obj c => c.chartType.isNone || c.title.isNone

/-- The `query` rejection condition of `query_logs` (lines 65-78): not a
string, or empty after trimming. -/
def queryParamBad : PyVal → Bool
  | .str s => pyStrip s == ""
  | _ => true

/-- The `semantic_result` rejection condition of `query_logs` (lines 81-117):
`None`, not a dict, an empty dict, or a dict whose `success` value defaults
to `True` but is present and falsy. -/
def semanticParamBad : PyVal → Bool
  | .dict d => d.isEmpty || !(dictGetD d "success" (.bool true)).truthy
  | _ => true

/-! # Theorems -/

/-- An attempt classified as an EMPTY outcome is a healthy zero-hit
envelope. -/
theorem Attempt.emptyOutcome_shape (a : Attempt) (ha : a.isEmptyOutcome = true) :
    ∃ d st, st < 400 ∧ a = .result d (.envelope Option.none st 0) := by
  cases a with
  | genExn m => simp [Attempt.isEmptyOutcome] at ha
  | execExn d m => simp [Attempt.isEmptyOutcome] at ha
  | result d res =>
      cases res with
      | falsy => simp [Attempt.isEmptyOutcome] at ha
      | envelope e st t =>
          simp [Attempt.isEmptyOutcome] at ha
          obtain ⟨⟨he, hst⟩, ht⟩ := ha
          exact ⟨d, st, hst, by rw [he, ht]⟩

/-- An attempt classified as an ACCEPTED outcome is a healthy positive-hit
envelope. -/
theorem Attempt.acceptedOutcome_shape (a : Attempt)
    (ha : a.isAcceptedOutcome = true) :
    ∃ d st t, st < 400 ∧ 0 < t ∧ a = .result d (.envelope Option.none st t) := by
  cases a with
  | genExn m => simp [Attempt.isAcceptedOutcome] at ha
  | execExn d m => simp [Attempt.isAcceptedOutcome] at ha
  | result d res =>
      cases res with
      | falsy => simp [Attempt.isAcceptedOutcome] at ha
      | envelope e st t =>
          simp [Attempt.isAcceptedOutcome] at ha
          obtain ⟨⟨he, hst⟩, ht⟩ := ha
          exact ⟨d, st, t, hst, ht, by rw [he]⟩

/-- C1, counterexample:  The claim says four consecutive EMPTY outcomes
end the turn in a failure.  On the code, a concrete run of four consecutive
EMPTY outcomes (healthy envelopes with zero hits) exits the loop as a
SUCCESS carrying the empty result — not a failure. -/
theorem c1_empty_exhaustion_counterexample :
    (runLoop
      [Attempt.result "q1" (.envelope Option.none 200 0),
       Attempt.result "q2" (.envelope Option.none 200 0),
       Attempt.result "q3" (.envelope Option.none 200 0),
       Attempt.result "q4" (.envelope Option.none 200 0)] initState).1 =
      LoopResult.success "q4" 0 ∧
    ∀ e d,
      (runLoop
        [Attempt.result "q1" (.envelope Option.none 200 0),
         Attempt.result "q2" (.envelope Option.none 200 0),
         Attempt.result "q3" (.envelope Option.none 200 0),
         Attempt.result "q4" (.envelope Option.none 200 0)] initState).1 ≠
        LoopResult.failure e d := by
  refine ⟨by decide, ?_⟩
  intro e d h
  rw [show (runLoop
      [Attempt.result "q1" (.envelope Option.none 200 0),
       Attempt.result "q2" (.envelope Option.none 200 0),
       Attempt.result "q3" (.envelope Option.none 200 0),
       Attempt.result "q4" (.envelope Option.none 200 0)] initState).1 =
      LoopResult.success "q4" 0 from by decide] at h
  exact LoopResult.noConfusion h

/-- C1, amended:  With `max_error_retries = 5`, six consecutive ERROR
outcomes produce a terminal failure carrying the 6th attempt's query body and
error detail, after exactly 6 attempts.  With `max_empty_retries = 3`, four
consecutive EMPTY outcomes end the loop after exactly 4 attempts — but by
emitting the exhaustion error notice and then breaking out as a SUCCESS that
carries the empty (0-hit) result onward, not as a failure. -/
theorem c1_retry_budget_exhaustion
    (q1 q2 q3 q4 q5 q6 m1 m2 m3 m4 m5 m6 : String) (tail : List Attempt) :
    (runLoop
      ([.result q1 (.envelope (some m1) 200 0), .result q2 (.envelope (some m2) 200 0),
        .result q3 (.envelope (some m3) 200 0), .result q4 (.envelope (some m4) 200 0),
        .result q5 (.envelope (some m5) 200 0), .result q6 (.envelope (some m6) 200 0)]
        ++ tail) initState).1 =
      .failure ("查询执行失败，已重试5次: " ++ m6) q6 ∧
    (runLoop
      ([.result q1 (.envelope Option.none 200 0), .result q2 (.envelope Option.none 200 0),
        .result q3 (.envelope Option.none 200 0), .result q4 (.envelope Option.none 200 0)]
        ++ tail) initState) =
      (.success q4 0,
       [.emptyRetrying 1, .emptyRetrying 2, .emptyRetrying 3,
        .emptyExhausted, .acceptedJson q4 0]) := by
  constructor
  · simp [runLoop, loopStep, maxErrorRetries, initState]
    simp [toString]
    rfl
  · simp [runLoop, loopStep, maxEmptyRetries, initState]

/-- C2:  The two retry counters are independent: an ERROR outcome steps
the state by incrementing only `error_retry_count` (or terminates when that
budget alone is exceeded), an EMPTY outcome increments only
`empty_retry_count` (or exits when that budget alone is exceeded), an
ACCEPTED outcome exits the loop immediately from any state, an error step is
insensitive to the empty counter and vice versa, and the concrete sequence
ERROR, ERROR, EMPTY, ACCEPTED succeeds with neither budget exhausted. -/
theorem c2_retry_counters_independent :
    (∀ a s, a.isErrorOutcome = true → s.errorRetryCount + 1 ≤ maxErrorRetries →
      ∃ s1, (loopStep a s).1 = .next s1 ∧
        s1.errorRetryCount = s.errorRetryCount + 1 ∧
        s1.emptyRetryCount = s.emptyRetryCount) ∧
    (∀ a s, a.isErrorOutcome = true → maxErrorRetries < s.errorRetryCount + 1 →
      ∃ e d, (loopStep a s).1 = .done (.failure e d)) ∧
    (∀ a s, a.isEmptyOutcome = true → s.emptyRetryCount + 1 ≤ maxEmptyRetries →
      ∃ s1, (loopStep a s).1 = .next s1 ∧
        s1.emptyRetryCount = s.emptyRetryCount + 1 ∧
        s1.errorRetryCount = s.errorRetryCount) ∧
    (∀ a s, a.isEmptyOutcome = true → maxEmptyRetries < s.emptyRetryCount + 1 →
      ∃ d, (loopStep a s).1 = .done (.success d 0)) ∧
    (∀ a s, a.isAcceptedOutcome = true →
      ∃ d t, (loopStep a s).1 = .done (.success d t) ∧ 0 < t) ∧
    (∀ a s e, a.isErrorOutcome = true →
      (loopStep a { s with emptyRetryCount := e }).1 =
        (match (loopStep a s).1 with
          | .next s1 => .next { s1 with emptyRetryCount := e }
          | .done r => .done r)) ∧
    (∀ a s e, a.isEmptyOutcome = true →
      (loopStep a { s with errorRetryCount := e }).1 =
        (match (loopStep a s).1 with
          | .next s1 => .next { s1 with errorRetryCount := e }
          | .done r => .done r)) ∧
    (∀ q1 q2 q3 q4 m1 m2 t, 0 < t →
      (runLoop
        [.result q1 (.envelope (some m1) 200 0), .result q2 (.envelope (some m2) 200 0),
         .result q3 (.envelope Option.none 200 0),
         .result q4 (.envelope Option.none 200 t)] initState).1 =
        .success q4 t) := by
  have herr : ∀ a, a.isErrorOutcome = true → ∀ s,
      (loopStep a s).1 =
        (if s.errorRetryCount + 1 ≤ maxErrorRetries then
          StepRes.next { s with
            errorRetryCount := s.errorRetryCount + 1
            dslQuery := a.attemptDsl s.dslQuery
            lastError := a.attemptErrorDetail }
        else
          StepRes.done (.failure (a.attemptFailureMsg) (a.attemptDsl s.dslQuery))) := by
    intro a ha s
    cases a with
    | genExn m =>
        by_cases h : s.errorRetryCount + 1 ≤ maxErrorRetries <;>
          simp [loopStep, h, Attempt.attemptDsl, Attempt.attemptErrorDetail,
            Attempt.attemptFailureMsg]
    | execExn d m =>
        by_cases h : s.errorRetryCount + 1 ≤ maxErrorRetries <;>
          simp [loopStep, h, Attempt.attemptDsl, Attempt.attemptErrorDetail,
            Attempt.attemptFailureMsg]
    | result d res =>
        cases res with
        | falsy =>
            by_cases h : s.errorRetryCount + 1 ≤ maxErrorRetries <;>
              simp [loopStep, h, Attempt.attemptDsl, Attempt.attemptErrorDetail,
                Attempt.attemptFailureMsg]
        | envelope er st t =>
            simp [Attempt.isErrorOutcome] at ha
            by_cases h : s.errorRetryCount + 1 ≤ maxErrorRetries <;>
              rcases ha with ha | ha <;>
                simp [loopStep, h, ha, Attempt.attemptDsl, Attempt.attemptErrorDetail,
                  Attempt.attemptFailureMsg]
  have hemp : ∀ d st, st < 400 → ∀ s,
      (loopStep (.result d (.envelope Option.none st 0)) s).1 =
        (if s.emptyRetryCount + 1 ≤ maxEmptyRetries then
          StepRes.next { s with
            emptyRetryCount := s.emptyRetryCount + 1
            dslQuery := d
            lastError := msgEmptyRetry (s.emptyRetryCount + 1) }
        else StepRes.done (.success d 0)) := by
    intro d st hst s
    have hst2 : ¬400 ≤ st := by omega
    by_cases h : s.emptyRetryCount + 1 ≤ maxEmptyRetries <;>
      simp [loopStep, h, hst2, msgEmptyRetry]
  refine ⟨?_, ?_, ?_, ?_, ?_, ?_, ?_, ?_⟩
  · intro a s ha h
    rw [herr a ha s, if_pos h]
    exact ⟨_, rfl, rfl, rfl⟩
  · intro a s ha h
    rw [herr a ha s, if_neg (by omega)]
    exact ⟨_, _, rfl⟩
  · intro a s ha h
    obtain ⟨d, st, hst, rfl⟩ := Attempt.emptyOutcome_shape a ha
    rw [hemp d st hst s, if_pos h]
    exact ⟨_, rfl, rfl, rfl⟩
  · intro a s ha h
    obtain ⟨d, st, hst, rfl⟩ := Attempt.emptyOutcome_shape a ha
    rw [hemp d st hst s, if_neg (by omega)]
    exact ⟨_, rfl⟩
  · intro a s ha
    obtain ⟨d, st, t, hst, ht, rfl⟩ := Attempt.acceptedOutcome_shape a ha
    have hst2 : ¬400 ≤ st := by omega
    have ht0 : ¬t = 0 := by omega
    exact ⟨d, t, by simp [loopStep, hst2, ht0], ht⟩
  · intro a s e ha
    rw [herr a ha s, herr a ha { s with emptyRetryCount := e }]
    by_cases h : s.errorRetryCount + 1 ≤ maxErrorRetries <;> simp [h]
  · intro a s e ha
    obtain ⟨d, st, hst, rfl⟩ := Attempt.emptyOutcome_shape a ha
    rw [hemp d st hst s, hemp d st hst { s with errorRetryCount := e }]
    by_cases h : s.emptyRetryCount + 1 ≤ maxEmptyRetries <;> simp [h]
  · intro q1 q2 q3 q4 m1 m2 t ht
    have ht0 : ¬t = 0 := by omega
    simp [runLoop, loopStep, initState, maxErrorRetries, maxEmptyRetries, ht0]

/-- C2 witness:  The concrete ERROR, ERROR, EMPTY, ACCEPTED sequence,
and both step facts instantiated at a concrete error attempt and state. -/
theorem c2_retry_counters_independent_witness :
    (runLoop
      [.result "a" (.envelope (some "e1") 200 0), .result "b" (.envelope (some "e2") 200 0),
       .result "c" (.envelope Option.none 200 0),
       .result "d" (.envelope Option.none 200 5)] initState).1 =
      .success "d" 5 ∧
    (∃ s1, (loopStep (.result "b" (.envelope (some "e2") 200 0)) ⟨1, 0, "a", "x"⟩).1 =
        .next s1 ∧ s1.errorRetryCount = 2 ∧ s1.emptyRetryCount = 0) ∧
    (∃ s1, (loopStep (.result "c" (.envelope Option.none 200 0)) ⟨2, 0, "b", "x"⟩).1 =
        .next s1 ∧ s1.emptyRetryCount = 1 ∧ s1.errorRetryCount = 2) :=
  ⟨c2_retry_counters_independent.2.2.2.2.2.2.2 "a" "b" "c" "d" "e1" "e2" 5 (by decide),
   c2_retry_counters_independent.1 _ ⟨1, 0, "a", "x"⟩ (by decide) (by decide),
   c2_retry_counters_independent.2.2.1 _ ⟨2, 0, "b", "x"⟩ (by decide) (by decide)⟩

/-- C3:  The index selector only ever returns a literal (case-sensitive)
member of the available index list; with an empty index list it returns
`None` without invoking the model (for every possible model behavior, and the
invocation flag is `false`); and when the model's selected name is not a
member, the selection returns `None` — no fallback. -/
theorem c3_index_selector_membership :
    (∀ indices model name,
      (selectBestIndex indices model).1 = some name → name ∈ indices) ∧
    (∀ model, selectBestIndex [] model = (Option.none, false)) ∧
    (∀ indices model sel, model indices = .parsed (some sel) → sel ∉ indices →
      (selectBestIndex indices model).1 = Option.none) := by
  refine ⟨?_, ?_, ?_⟩
  · intro indices model name h
    by_cases he : indices.isEmpty = true
    · simp [selectBestIndex, he] at h
    · cases hm : model indices with
      | noJson => simp [selectBestIndex, he, hm] at h
      | parsed sel =>
          cases sel with
          | none => simp [selectBestIndex, he, hm] at h
          | some nm =>
              by_cases hin : nm ∈ indices
              · simp [selectBestIndex, he, hm, hin] at h
                rw [← h]
                exact hin
              · simp [selectBestIndex, he, hm, hin] at h
  · intro model
    rfl
  · intro indices model sel hm hnot
    by_cases he : indices.isEmpty = true
    · simp [selectBestIndex, he]
    · simp [selectBestIndex, he, hm, hnot]

/-- C3 witness:  A selection that is only a case-insensitive match of an
available index is rejected (`"web-logs"` vs `"Web-Logs"`), and the empty
index list fails for a concrete model without being consulted. -/
theorem c3_index_selector_membership_witness :
    (selectBestIndex ["Web-Logs"] (fun _ => .parsed (some "web-logs"))).1 =
      Option.none ∧
    selectBestIndex [] (fun _ => .parsed (some "Web-Logs")) =
      (Option.none, false) :=
  ⟨c3_index_selector_membership.2.2 ["Web-Logs"]
      (fun _ => .parsed (some "web-logs")) "web-logs" rfl (by decide),
   c3_index_selector_membership.2.1 (fun _ => .parsed (some "Web-Logs"))⟩

/-- C4:  With more than one example, an out-of-range model answer and an
unparseable model answer both fall back to example #0, and the caller then
reduces the sample list to exactly that single first example — never keeping
the full list in that situation. -/
theorem c4_sample_selection_fallback :
    (∀ samples n, 1 < samples.length → samples.length ≤ n →
      selectMostSimilarSample samples (some n) = samples.head?) ∧
    (∀ samples, 1 < samples.length →
      selectMostSimilarSample samples Option.none = samples.head?) ∧
    (∀ s0 s1 rest answer,
      (answer = Option.none ∨ ∃ n, answer = some n ∧ (s0 :: s1 :: rest).length ≤ n) →
      reduceSamples (s0 :: s1 :: rest) answer = [s0]) := by
  refine ⟨?_, ?_, ?_⟩
  · intro samples n hlen hn
    have h1 : ¬(samples.length ≤ 1) := by omega
    have h2 : ¬(n < samples.length) := by omega
    simp [selectMostSimilarSample, h1, h2]
  · intro samples hlen
    have h1 : ¬(samples.length ≤ 1) := by omega
    simp [selectMostSimilarSample, h1]
  · intro s0 s1 rest answer h
    have hgt : 1 < (s0 :: s1 :: rest).length := by
      simp [List.length_cons]
    have h1 : ¬((s0 :: s1 :: rest).length ≤ 1) := by omega
    rcases h with rfl | ⟨n, rfl, hn⟩
    · simp [reduceSamples, hgt, selectMostSimilarSample, h1]
    · have h2 : ¬(n < (s0 :: s1 :: rest).length) := by omega
      simp only [List.length_cons] at h2
      simp [reduceSamples, hgt, selectMostSimilarSample, h1, h2]

/-- C4 witness:  Two concrete examples, an out-of-range answer (5) and an
unparseable answer: in both cases the loop input becomes exactly the first
example. -/
theorem c4_sample_selection_fallback_witness :
    reduceSamples [⟨"cloudfront 4xx errors", "qa"⟩, ⟨"alb latency", "qb"⟩]
      (some 5) = [⟨"cloudfront 4xx errors", "qa"⟩] ∧
    reduceSamples [⟨"cloudfront 4xx errors", "qa"⟩, ⟨"alb latency", "qb"⟩]
      Option.none = [⟨"cloudfront 4xx errors", "qa"⟩] :=
  ⟨c4_sample_selection_fallback.2.2 ⟨"cloudfront 4xx errors", "qa"⟩
      ⟨"alb latency", "qb"⟩ [] (some 5) (Or.inr ⟨5, rfl, by decide⟩),
   c4_sample_selection_fallback.2.2 ⟨"cloudfront 4xx errors", "qa"⟩
      ⟨"alb latency", "qb"⟩ [] Option.none (Or.inl rfl)⟩

/-- Helper: `_validate_xy_chart` on a chart with all four arrays present
truncates both pairs. -/
theorem validateXYChart_both (c : Chart) (x y v n : List PyVal)
    (hx : c.xAxis = some x) (hy : c.yAxis = some y)
    (hv : c.values = some v) (hn : c.names = some n) :
    validateXYChart c =
      some { c with xAxis := some (truncatePair x y).1
                    yAxis := some (truncatePair x y).2
                    values := some (truncatePair v n).1
                    names := some (truncatePair v n).2 } := by
  simp [validateXYChart, hx, hy, hv, hn]

/-- Helper: `_validate_xy_chart` with only the `x_axis`/`y_axis` pair. -/
theorem validateXYChart_xyOnly (c : Chart) (x y : List PyVal)
    (hx : c.xAxis = some x) (hy : c.yAxis = some y)
    (hvn : c.values.isSome = false ∨ c.names.isSome = false) :
    validateXYChart c =
      some { c with xAxis := some (truncatePair x y).1
                    yAxis := some (truncatePair x y).2 } := by
  rcases hvn with h | h <;> simp [validateXYChart, hx, hy, h]

/-- Helper: `_validate_xy_chart` with only the `values`/`names` pair. -/
theorem validateXYChart_vnOnly (c : Chart) (v n : List PyVal)
    (hv : c.values = some v) (hn : c.names = some n)
    (hxy : c.xAxis.isSome = false ∨ c.yAxis.isSome = false) :
    validateXYChart c =
      some { c with values := some (truncatePair v n).1
                    names := some (truncatePair v n).2 } := by
  rcases hxy with h | h <;> simp [validateXYChart, hv, hn, h]

/-- Helper: `truncatePair` on non-empty arrays of different lengths takes the
shorter prefix of both. -/
theorem truncatePair_of_ne (a b : List PyVal) (ha : a.length ≠ 0)
    (hb : b.length ≠ 0) (hab : a.length ≠ b.length) :
    truncatePair a b =
      (a.take (min a.length b.length), b.take (min a.length b.length)) := by
  simp [truncatePair, ha, hb, hab]

/-- C5:  Mismatched non-empty array pairs are repaired by truncation to
the shorter length, not rejected: for pie charts the `values`/`names` pair,
and for the xy chart types (bar, line, scatter, area — all dispatched to
`_validate_xy_chart`) both the `x_axis`/`y_axis` pair and the
`values`/`names` pair; the type dispatch of `_validate_chart_data` routes
`pie` to `_validate_pie_chart` and bar/line/scatter/area to
`_validate_xy_chart` (with `_fix_chart_data` only as the except-branch). -/
theorem c5_chart_truncation :
    (∀ (c : Chart) (v n : List PyVal), c.values = some v → c.names = some n →
      v.length ≠ 0 → n.length ≠ 0 → v.length ≠ n.length →
      validatePieChart c =
        some { c with values := some (v.take (min v.length n.length)),
                      names := some (n.take (min v.length n.length)) }) ∧
    (∀ (c : Chart) (x y : List PyVal), c.xAxis = some x → c.yAxis = some y →
      x.length ≠ 0 → y.length ≠ 0 → x.length ≠ y.length →
      ∃ c1, validateXYChart c = some c1 ∧
        c1.xAxis = some (x.take (min x.length y.length)) ∧
        c1.yAxis = some (y.take (min x.length y.length))) ∧
    (∀ (c : Chart) (v n : List PyVal), c.values = some v → c.names = some n →
      v.length ≠ 0 → n.length ≠ 0 → v.length ≠ n.length →
      ∃ c1, validateXYChart c = some c1 ∧
        c1.values = some (v.take (min v.length n.length)) ∧
        c1.names = some (n.take (min v.length n.length))) ∧
    (∀ (c : Chart) (t : String), c.chartType = some "pie" → c.title = some t →
      validateChartData c = some ((validatePieChart c).getD
        (fixChartData "pie" c))) ∧
    (∀ (c : Chart) (t ct : String), c.chartType = some ct → c.title = some t →
      ct = "bar" ∨ ct = "line" ∨ ct = "scatter" ∨ ct = "area" →
      validateChartData c = some ((validateXYChart c).getD
        (fixChartData ct c))) := by
  refine ⟨?_, ?_, ?_, ?_, ?_⟩
  · intro c v n hv hn hv0 hn0 hne
    simp [validatePieChart, hv, hn, truncatePair_of_ne v n hv0 hn0 hne]
  · intro c x y hx hy hx0 hy0 hne
    have hp := truncatePair_of_ne x y hx0 hy0 hne
    cases hv : c.values with
    | none =>
        rw [validateXYChart_xyOnly c x y hx hy (Or.inl (by simp [hv]))]
        exact ⟨_, rfl, by simp [hp], by simp [hp]⟩
    | some v =>
        cases hn : c.names with
        | none =>
            rw [validateXYChart_xyOnly c x y hx hy (Or.inr (by simp [hn]))]
            exact ⟨_, rfl, by simp [hp], by simp [hp]⟩
        | some n =>
            rw [validateXYChart_both c x y v n hx hy hv hn]
            exact ⟨_, rfl, by simp [hp], by simp [hp]⟩
  · intro c v n hv hn hv0 hn0 hne
    have hp := truncatePair_of_ne v n hv0 hn0 hne
    cases hx : c.xAxis with
    | none =>
        rw [validateXYChart_vnOnly c v n hv hn (Or.inl (by simp [hx]))]
        exact ⟨_, rfl, by simp [hp], by simp [hp]⟩
    | some x =>
        cases hy : c.yAxis with
        | none =>
            rw [validateXYChart_vnOnly c v n hv hn (Or.inr (by simp [hy]))]
            exact ⟨_, rfl, by simp [hp], by simp [hp]⟩
        | some y =>
            rw [validateXYChart_both c x y v n hx hy hv hn]
            exact ⟨_, rfl, by simp [hp], by simp [hp]⟩
  · intro c t hct ht
    have hl : strToLower "pie" = "pie" := by decide
    simp [validateChartData, hct, ht, validChartTypes, hl]
    cases hpc : validatePieChart c <;> simp [hpc]
  · intro c t ct hct ht hcase
    have hl1 : strToLower "bar" = "bar" := by decide
    have hl2 : strToLower "line" = "line" := by decide
    have hl3 : strToLower "scatter" = "scatter" := by decide
    have hl4 : strToLower "area" = "area" := by decide
    rcases hcase with rfl | rfl | rfl | rfl <;>
      [simp [validateChartData, hct, ht, validChartTypes, hl1];
       simp [validateChartData, hct, ht, validChartTypes, hl2];
       simp [validateChartData, hct, ht, validChartTypes, hl3];
       simp [validateChartData, hct, ht, validChartTypes, hl4]] <;>
      cases hxc : validateXYChart c <;> simp [hxc]

/-- C5 witness:  The spec's concrete example: a pie chart with `values`
of length 5 and `names` of length 3 is repaired to length-3 arrays for both;
and a bar chart's `x_axis`/`y_axis` of lengths 2 and 4 are truncated to
length 2. -/
theorem c5_chart_truncation_witness :
    validatePieChart
      { chartType := some "pie", title := some "share", xAxis := Option.none,
        yAxis := Option.none,
        values := some [.int 1, .int 2, .int 3, .int 4, .int 5],
        names := some [.str "a", .str "b", .str "c"], data := Option.none,
        value := Option.none, chartId := Option.none, priority := Option.none,
        description := Option.none } =
      some
        { chartType := some "pie", title := some "share", xAxis := Option.none,
          yAxis := Option.none, values := some [.int 1, .int 2, .int 3],
          names := some [.str "a", .str "b", .str "c"], data := Option.none,
          value := Option.none, chartId := Option.none, priority := Option.none,
          description := Option.none } ∧
    ∃ c1, validateXYChart
      { chartType := some "bar", title := some "counts",
        xAxis := some [.str "x1", .str "x2"],
        yAxis := some [.int 1, .int 2, .int 3, .int 4], values := Option.none,
        names := Option.none, data := Option.none, value := Option.none,
        chartId := Option.none, priority := Option.none,
        description := Option.none } = some c1 ∧
      c1.xAxis = some [.str "x1", .str "x2"] ∧
      c1.yAxis = some [.int 1, .int 2] :=
  ⟨c5_chart_truncation.1 _ [.int 1, .int 2, .int 3, .int 4, .int 5]
      [.str "a", .str "b", .str "c"] rfl rfl (by decide) (by decide) (by decide),
   c5_chart_truncation.2.1 _ [.str "x1", .str "x2"]
      [.int 1, .int 2, .int 3, .int 4] rfl rfl (by decide) (by decide) (by decide)⟩

/-- Helper: `_validate_chart_data` raises exactly when `chart_type` or
`title` is missing. -/
theorem validateChartData_none_of_invalid (c : Chart)
    (h : c.chartType.isNone || c.title.isNone) :
    validateChartData c = Option.none := by
  cases hct : c.chartType with
  | none => simp [validateChartData, hct]
  | some ct =>
      cases ht : c.title with
      | none => simp [validateChartData, hct, ht]
      | some t => simp [hct, ht] at h

/-- Helper: the multi-chart validation loop keeps nothing when every entry is
invalid. -/
theorem processEntries_nil_of_invalid :
    ∀ (entries : List ChartEntry) (i : Nat),
    (∀ e ∈ entries, chartEntryInvalid e = true) → processEntries entries i = [] := by
  intro entries
  induction entries with
  | nil => intro i _; rfl
  | cons e rest ih =>
      intro i h
      cases e with
      | nonDict v =>
          simpa [processEntries] using ih (i + 1) (fun x hx => h x (by simp [hx]))
      | obj c =>
          have hc : chartEntryInvalid (.obj c) = true := h _ (by simp)
          simp only [chartEntryInvalid] at hc
          simp [processEntries, validateChartData_none_of_invalid c hc]
          exact ih (i + 1) (fun x hx => h x (by simp [hx]))

/-- C6:  Chart synthesis never yields zero charts: every outcome of the
summarizer's chart step has a non-empty chart list; an unparseable model
response yields the default placeholder; a response whose charts are all
invalid yields the default placeholder; and the placeholder is exactly one
chart of type `bar` — independent of the result envelope, so in particular
also for a `total=0`, empty-document run. -/
theorem c6_chart_nonempty_fallback :
    (∀ p, (generateIntelligentChartData p).charts ≠ []) ∧
    generateIntelligentChartData .unparseable = defaultMultiChartData ∧
    (∀ entries summary, (∀ e ∈ entries, chartEntryInvalid e = true) →
      generateIntelligentChartData (.parsed (.multi entries summary)) =
        defaultMultiChartData) ∧
    defaultMultiChartData.charts = [defaultChart] ∧
    defaultChart.chartType = some "bar" := by
  refine ⟨?_, rfl, ?_, rfl, rfl⟩
  · intro p
    cases p with
    | unparseable =>
        simp [generateIntelligentChartData, defaultMultiChartData, defaultChart]
    | parsed ci =>
        cases ci with
        | multi entries summary =>
            simp only [generateIntelligentChartData, processMultiChartData]
            by_cases h : (processEntries entries 0).isEmpty
            · simp [h, defaultMultiChartData, defaultChart]
            · simp only [h, Bool.false_eq_true, if_false]
              simpa [List.isEmpty_iff] using h
        | single c =>
            cases hv : validateChartData c with
            | none =>
                simp [generateIntelligentChartData, processMultiChartData, hv,
                  defaultMultiChartData, defaultChart]
            | some c1 =>
                simp [generateIntelligentChartData, processMultiChartData, hv]
  · intro entries summary h
    simp [generateIntelligentChartData, processMultiChartData,
      processEntries_nil_of_invalid entries 0 h]

/-- C6 witness:  A response whose two charts both fail validation (one is
a bare value, one lacks a title) falls back to the single-bar default. -/
theorem c6_chart_nonempty_fallback_witness :
    generateIntelligentChartData
      (.parsed (.multi
        [.nonDict (.str "not a chart"),
         .obj { chartType := some "line", title := Option.none,
                xAxis := Option.none, yAxis := Option.none,
                values := Option.none, names := Option.none,
                data := Option.none, value := Option.none,
                chartId := Option.none, priority := Option.none,
                description := Option.none }] (some "overview"))) =
      defaultMultiChartData :=
  c6_chart_nonempty_fallback.2.2.1 _ (some "overview") (by decide)

/-- Helper: the keyword-score fold is the sum of the per-keyword weights. -/
theorem modeScore_eq_sum (ql lt ks : String) (m : AnalysisMode) :
    modeScore ql lt ks m =
      (m.keywords.map (fun kw =>
        (if strContains ql kw then (2 : ℚ) else 0) +
        (if strContains lt kw then 3 / 2 else 0) +
        (if strContains ks kw then 1 else 0))).sum := by
  have h : ∀ (l : List String) (a : ℚ),
      l.foldl (fun acc kw =>
        acc + (if strContains ql kw then (2 : ℚ) else 0)
            + (if strContains lt kw then 3 / 2 else 0)
            + (if strContains ks kw then 1 else 0)) a =
        a + (l.map (fun kw =>
          (if strContains ql kw then (2 : ℚ) else 0) +
          (if strContains lt kw then 3 / 2 else 0) +
          (if strContains ks kw then 1 else 0))).sum := by
    intro l
    induction l with
    | nil => intro a; simp
    | cons kw rest ih =>
        intro a
        simp [List.foldl_cons, ih, List.sum_cons]
        ring
  simpa [modeScore] using h m.keywords 0

/-- Helper: a mode none of whose keywords occurs anywhere scores zero. -/
theorem modeScore_zero_of_no_match (ql lt ks : String) (m : AnalysisMode)
    (h : m.keywords.all (fun kw =>
      !strContains ql kw && !strContains lt kw && !strContains ks kw) = true) :
    modeScore ql lt ks m = 0 := by
  rw [modeScore_eq_sum]
  have : ∀ kw ∈ m.keywords,
      (if strContains ql kw then (2 : ℚ) else 0) +
      (if strContains lt kw then 3 / 2 else 0) +
      (if strContains ks kw then 1 else 0) = 0 := by
    intro kw hkw
    have h2 := List.all_eq_true.mp h kw hkw
    simp only [Bool.and_eq_true, Bool.not_eq_true'] at h2
    simp [h2.1.1, h2.1.2, h2.2]
  calc (m.keywords.map _).sum
      = (m.keywords.map (fun _ => (0 : ℚ))).sum := by
        rw [List.map_congr_left this]
    _ = 0 := by simp

/-- Helper: every per-keyword weight is nonnegative. -/
theorem modeScore_nonneg (ql lt ks : String) (m : AnalysisMode) :
    0 ≤ modeScore ql lt ks m := by
  rw [modeScore_eq_sum]
  apply List.sum_nonneg
  intro x hx
  simp only [List.mem_map] at hx
  obtain ⟨kw, _, rfl⟩ := hx
  have h1 : (0:ℚ) ≤ if strContains ql kw then (2 : ℚ) else 0 := by positivity
  have h2 : (0:ℚ) ≤ if strContains lt kw then (3/2 : ℚ) else 0 := by positivity
  have h3 : (0:ℚ) ≤ if strContains ks kw then (1 : ℚ) else 0 := by positivity
  linarith

/-- Helper: a mode scores positive when one of its keywords occurs in the
query text. -/
theorem modeScore_pos_of_query_match (ql lt ks : String) (m : AnalysisMode)
    (kw : String) (hkw : kw ∈ m.keywords) (hq : strContains ql kw = true) :
    0 < modeScore ql lt ks m := by
  rw [modeScore_eq_sum]
  have hx : ((if strContains ql kw then (2 : ℚ) else 0) +
      (if strContains lt kw then 3 / 2 else 0) +
      (if strContains ks kw then 1 else 0)) ∈
      m.keywords.map (fun kw =>
        (if strContains ql kw then (2 : ℚ) else 0) +
        (if strContains lt kw then 3 / 2 else 0) +
        (if strContains ks kw then 1 else 0)) :=
    List.mem_map_of_mem _ hkw
  have hle := List.single_le_sum (l := m.keywords.map (fun kw =>
      (if strContains ql kw then (2 : ℚ) else 0) +
      (if strContains lt kw then 3 / 2 else 0) +
      (if strContains ks kw then 1 else 0))) ?_ _ hx
  · have h2 : (0:ℚ) ≤ if strContains lt kw then (3/2 : ℚ) else 0 := by positivity
    have h3 : (0:ℚ) ≤ if strContains ks kw then (1 : ℚ) else 0 := by positivity
    rw [hq] at hle
    simp only [if_true] at hle
    linarith
  · intro x hxm
    simp only [List.mem_map] at hxm
    obtain ⟨kw1, _, rfl⟩ := hxm
    have h1 : (0:ℚ) ≤ if strContains ql kw1 then (2 : ℚ) else 0 := by positivity
    have h2 : (0:ℚ) ≤ if strContains lt kw1 then (3/2 : ℚ) else 0 := by positivity
    have h3 : (0:ℚ) ≤ if strContains ks kw1 then (1 : ℚ) else 0 := by positivity
    linarith

/-- Helper: `determineAnalysisMode` through the `argmax` equation. -/
theorem determineAnalysisMode_eq_of_argmax (q lt : String) (kws : List String)
    (best : AnalysisMode)
    (hb : analysisModes.argmax (modeScore (strToLower q) (strToLower lt)
      (String.intercalate " " (kws.map strToLower))) = some best) :
    determineAnalysisMode q lt kws =
      if 0 < modeScore (strToLower q) (strToLower lt)
          (String.intercalate " " (kws.map strToLower)) best then
        ⟨best.name, best.focusAreas,
         min (modeScore (strToLower q) (strToLower lt)
           (String.intercalate " " (kws.map strToLower)) best / 5) 1⟩
      else comprehensiveResult := by
  unfold determineAnalysisMode
  simp only [hb]

/-- C7:  Analysis-mode classification is deterministic keyword-overlap
scoring: each mode's score is the sum over its keyword list of the matching
weights (2 for the lowercased query text, 3/2 for the lowercased log type, 1
for the space-joined lowercased keyword entities); if every mode scores zero
the result is the comprehensive mode; otherwise the selected mode scores
positive, at least every other mode, and strictly more than every mode
declared earlier in the table. -/
theorem c7_analysis_mode_scoring (q lt : String) (kws : List String) :
    (∀ m, modeScore (strToLower q) (strToLower lt)
        (String.intercalate " " (kws.map strToLower)) m =
      (m.keywords.map (fun kw =>
        (if strContains (strToLower q) kw then (2 : ℚ) else 0) +
        (if strContains (strToLower lt) kw then 3 / 2 else 0) +
        (if strContains (String.intercalate " " (kws.map strToLower)) kw
          then 1 else 0))).sum) ∧
    ((∀ m ∈ analysisModes, modeScore (strToLower q) (strToLower lt)
        (String.intercalate " " (kws.map strToLower)) m = 0) →
      determineAnalysisMode q lt kws = comprehensiveResult) ∧
    (∀ m0 ∈ analysisModes, 0 < modeScore (strToLower q) (strToLower lt)
        (String.intercalate " " (kws.map strToLower)) m0 →
      ∃ b ∈ analysisModes,
        (determineAnalysisMode q lt kws).mode = b.name ∧
        (determineAnalysisMode q lt kws).focusAreas = b.focusAreas ∧
        0 < modeScore (strToLower q) (strToLower lt)
          (String.intercalate " " (kws.map strToLower)) b ∧
        (∀ a ∈ analysisModes, modeScore (strToLower q) (strToLower lt)
          (String.intercalate " " (kws.map strToLower)) a ≤
            modeScore (strToLower q) (strToLower lt)
              (String.intercalate " " (kws.map strToLower)) b) ∧
        (∀ a ∈ analysisModes, analysisModes.indexOf a < analysisModes.indexOf b →
          modeScore (strToLower q) (strToLower lt)
            (String.intercalate " " (kws.map strToLower)) a <
              modeScore (strToLower q) (strToLower lt)
                (String.intercalate " " (kws.map strToLower)) b)) := by
  refine ⟨fun m => modeScore_eq_sum _ _ _ m, ?_, ?_⟩
  · intro hall
    cases hb : analysisModes.argmax (modeScore (strToLower q) (strToLower lt)
        (String.intercalate " " (kws.map strToLower))) with
    | none =>
        exfalso
        have h0 : analysisModes = [] := List.argmax_eq_none.mp hb
        exact List.cons_ne_nil _ _ h0
    | some best =>
        have hmem : best ∈ analysisModes := List.argmax_mem (Option.mem_def.mpr hb)
        rw [determineAnalysisMode_eq_of_argmax q lt kws best hb,
          if_neg (by rw [hall best hmem]; exact lt_irrefl 0)]
  · intro m0 hm0 hpos
    cases hb : analysisModes.argmax (modeScore (strToLower q) (strToLower lt)
        (String.intercalate " " (kws.map strToLower))) with
    | none =>
        exfalso
        have h0 : analysisModes = [] := List.argmax_eq_none.mp hb
        rw [h0] at hm0
        exact absurd hm0 (List.not_mem_nil m0)
    | some best =>
        have hbm : best ∈ analysisModes.argmax (modeScore (strToLower q)
            (strToLower lt) (String.intercalate " " (kws.map strToLower))) :=
          Option.mem_def.mpr hb
        have hmem : best ∈ analysisModes := List.argmax_mem hbm
        have hle : ∀ a ∈ analysisModes,
            modeScore (strToLower q) (strToLower lt)
              (String.intercalate " " (kws.map strToLower)) a ≤
            modeScore (strToLower q) (strToLower lt)
              (String.intercalate " " (kws.map strToLower)) best :=
          fun a ha => List.le_of_mem_argmax ha hbm
        have hbpos : 0 < modeScore (strToLower q) (strToLower lt)
            (String.intercalate " " (kws.map strToLower)) best :=
          lt_of_lt_of_le hpos (hle m0 hm0)
        have hr := determineAnalysisMode_eq_of_argmax q lt kws best hb
        rw [if_pos hbpos] at hr
        refine ⟨best, hmem, by rw [hr], by rw [hr], hbpos, hle, ?_⟩
        intro a ha hidx
        by_contra hc
        push_neg at hc
        have := List.index_of_argmax hbm ha hc
        omega

/-- C7 witness:  A query hitting none of the keyword lists selects the
comprehensive mode; a query containing "5xx" selects a positive-scoring
mode (the error mode is a positive-scoring member). -/
theorem c7_analysis_mode_scoring_witness :
    determineAnalysisMode "hello world" "" [] = comprehensiveResult ∧
    ∃ b ∈ analysisModes,
      (determineAnalysisMode "统计5xx错误" "" []).mode = b.name ∧
      (determineAnalysisMode "统计5xx错误" "" []).focusAreas = b.focusAreas ∧
      0 < modeScore (strToLower "统计5xx错误") (strToLower "")
        (String.intercalate " " (([] : List String).map strToLower)) b ∧
      (∀ a ∈ analysisModes, modeScore (strToLower "统计5xx错误") (strToLower "")
        (String.intercalate " " (([] : List String).map strToLower)) a ≤
          modeScore (strToLower "统计5xx错误") (strToLower "")
            (String.intercalate " " (([] : List String).map strToLower)) b) ∧
      (∀ a ∈ analysisModes, analysisModes.indexOf a < analysisModes.indexOf b →
        modeScore (strToLower "统计5xx错误") (strToLower "")
          (String.intercalate " " (([] : List String).map strToLower)) a <
            modeScore (strToLower "统计5xx错误") (strToLower "")
              (String.intercalate " " (([] : List String).map strToLower)) b) :=
  ⟨(c7_analysis_mode_scoring "hello world" "" []).2.1
    (by
      intro m hm
      apply modeScore_zero_of_no_match
      fin_cases hm <;> decide),
   (c7_analysis_mode_scoring "统计5xx错误" "" []).2.2
     ⟨"error_analysis",
      ["错误", "异常", "error", "exception", "失败", "failed", "5xx", "4xx",
       "timeout", "超时"],
      ["错误统计", "异常模式", "错误分布", "根因分析", "影响评估"]⟩
     (by decide)
     (modeScore_pos_of_query_match _ _ _ _ "5xx" (by decide) (by decide))⟩

/-- Helper: reading the key just written. -/
theorem dictGet_dictSet_self (d : PyDict) (k : String) (v : PyVal) :
    dictGet (dictSet d k v) k = some v := by
  induction d with
  | nil => simp [dictSet, dictGet]
  | cons p rest ih =>
      obtain ⟨k0, v0⟩ := p
      by_cases h : (k0 == k) = true
      · simp [dictSet, h, dictGet]
      · simp [dictSet, h, dictGet] at ih ⊢
        exact ih

/-- Helper: writing one key does not change another. -/
theorem dictGet_dictSet_ne (d : PyDict) (k k2 : String) (v : PyVal)
    (h : k2 ≠ k) :
    dictGet (dictSet d k v) k2 = dictGet d k2 := by
  induction d with
  | nil =>
      simp [dictSet, dictGet, beq_iff_eq]
      exact Ne.symm h
  | cons p rest ih =>
      obtain ⟨k0, v0⟩ := p
      by_cases h0 : (k0 == k) = true
      · have hk0 : k0 = k := by simpa [beq_iff_eq] using h0
        subst hk0
        simp [dictSet, dictGet, beq_iff_eq, Ne.symm h]
      · by_cases h2 : (k0 == k2) = true
        · simp [dictSet, h0, dictGet, h2]
        · simp [dictSet, h0, dictGet, h2] at ih ⊢
          exact ih

/-- Helper: a key with a value is present. -/
theorem dictHas_of_dictGet (d : PyDict) (k : String) (v : PyVal)
    (h : dictGet d k = some v) : dictHas d k = true := by
  unfold dictGet at h
  unfold dictHas
  obtain ⟨⟨k0, v0⟩, hf⟩ : ∃ p, d.find? (fun p => p.1 == k) = some p := by
    cases hf : d.find? (fun p => p.1 == k) with
    | none => rw [hf] at h; simp at h
    | some p => exact ⟨p, rfl⟩
  have hp := List.find?_some hf
  have hm := List.mem_of_find?_eq_some hf
  exact List.any_eq_true.mpr ⟨_, hm, hp⟩

/-- Helper: presence of another key survives a write. -/
theorem dictHas_dictSet_ne (d : PyDict) (k k2 : String) (v : PyVal)
    (h : k2 ≠ k) : dictHas (dictSet d k v) k2 = dictHas d k2 := by
  induction d with
  | nil =>
      simp [dictSet, dictHas, beq_iff_eq]
      exact Ne.symm h
  | cons p rest ih =>
      obtain ⟨k0, v0⟩ := p
      by_cases h0 : (k0 == k) = true
      · have hk0 : k0 = k := by simpa [beq_iff_eq] using h0
        subst hk0
        simp [dictSet, dictHas, beq_iff_eq, Ne.symm h]
      · simp [dictSet, h0, dictHas] at ih ⊢
        rw [ih]

/-- Helper: `fixTimeRange` does not touch other keys. -/
theorem dictGet_fixTimeRange_ne (d : PyDict) (k : String)
    (h : k ≠ "time_range") : dictGet (fixTimeRange d) k = dictGet d k := by
  unfold fixTimeRange
  split
  · rfl
  · exact dictGet_dictSet_ne _ _ _ _ h

/-- Helper: `fixKeywords` does not touch keys other than `entities`. -/
theorem dictGet_fixKeywords_ne (d ents : PyDict) (k : String)
    (h : k ≠ "entities") : dictGet (fixKeywords d ents) k = dictGet d k := by
  unfold fixKeywords
  split
  · rfl
  · exact dictGet_dictSet_ne _ _ _ _ h

/-- Helper: the bookkeeping steps preserve an existing `rewritten_query`. -/
theorem dictGet_addBookkeeping_rw (q : String) (hh : Bool) (d : PyDict)
    (v : PyVal) (hget : dictGet d "rewritten_query" = some v) :
    dictGet (addBookkeeping q hh d) "rewritten_query" = some v := by
  unfold addBookkeeping
  have h4 : dictGet (dictSet (dictSet d "query" (.str q)) "success"
      (.bool true)) "rewritten_query" = some v := by
    rw [dictGet_dictSet_ne _ _ _ _ (by decide),
      dictGet_dictSet_ne _ _ _ _ (by decide)]
    exact hget
  have h5 : addRewrittenDefault q (dictSet (dictSet d "query" (.str q))
      "success" (.bool true)) = dictSet (dictSet d "query" (.str q))
      "success" (.bool true) := by
    unfold addRewrittenDefault
    rw [if_pos (dictHas_of_dictGet _ _ _ h4)]
  rw [h5]
  have h6 : dictGet (addRewriteReason (dictSet (dictSet d "query" (.str q))
      "success" (.bool true))) "rewritten_query" = some v := by
    unfold addRewriteReason
    split
    · exact h4
    · rw [dictGet_dictSet_ne _ _ _ _ (by decide)]; exact h4
  unfold addContextUsed
  split
  · exact h6
  · rw [dictGet_dictSet_ne _ _ _ _ (by decide)]; exact h6

/-- Helper: the post-check stage never returns a failure result. -/
theorem processValidResult_ne_failure (q : String) (hh : Bool) (d : PyDict)
    (e : String) (pr : Option PyDict) :
    processValidResult q hh d ≠ .failure e pr := by
  unfold processValidResult
  split <;> simp

/-- Helper: a success of the post-check stage preserves an existing
`rewritten_query`. -/
theorem processValidResult_ok_rw (q : String) (hh : Bool) (d : PyDict)
    (r : PyDict) (hok : processValidResult q hh d = .ok r)
    (hget : dictGet d "rewritten_query" = some (.str q)) :
    dictGet r "rewritten_query" = some (.str q) := by
  unfold processValidResult at hok
  split at hok
  case _ ents _ =>
    obtain rfl : addBookkeeping q hh (fixKeywords (fixTimeRange d) ents) = r :=
      by injection hok
    apply dictGet_addBookkeeping_rw
    rw [dictGet_fixKeywords_ne _ _ _ (by decide),
      dictGet_fixTimeRange_ne _ _ (by decide)]
    exact hget
  case _ => exact absurd hok (by simp)

/-- C8:  When the parsed object is missing `rewritten_query`, the
analyzer fills it with the original user query — visible both in the partial
object attached to an incompleteness failure and in a success result.  When
any other required key is still missing after that fill, the analyzer
returns a failure carrying the partial object, never a success. -/
theorem c8_semantic_missing_keys (q : String) (hh : Bool) (obj : PyDict) :
    (dictHas obj "rewritten_query" = false →
      (∀ e p, processDecodedResult q hh obj = .failure e (some p) →
        dictGet p "rewritten_query" = some (.str q)) ∧
      (∀ r, processDecodedResult q hh obj = .ok r →
        dictGet r "rewritten_query" = some (.str q))) ∧
    ((∃ f ∈ requiredFields, f ≠ "rewritten_query" ∧ dictHas obj f = false) →
      (∃ e p, processDecodedResult q hh obj = .failure e (some p)) ∧
      ∀ r, processDecodedResult q hh obj ≠ .ok r) := by
  constructor
  · intro hrw
    have hmem : "rewritten_query" ∈
        requiredFields.filter (fun f => !dictHas obj f) :=
      List.mem_filter.mpr ⟨by decide, by simp [hrw]⟩
    have hcont : (requiredFields.filter
        (fun f => !dictHas obj f)).contains "rewritten_query" = true :=
      List.elem_iff.mpr hmem
    have hr1get : dictGet (dictSet (dictSet obj "rewritten_query" (.str q))
        "rewrite_reason" (.str "未进行改写")) "rewritten_query" =
        some (.str q) := by
      rw [dictGet_dictSet_ne _ _ _ _ (by decide), dictGet_dictSet_self]
    constructor
    · intro e p heq
      unfold processDecodedResult at heq
      simp only [hcont, if_true] at heq
      split at heq
      · obtain rfl : _ = p := by injection heq with h1 h2; injection h2
        exact hr1get
      · exact absurd heq (processValidResult_ne_failure _ _ _ _ _)
    · intro r heq
      unfold processDecodedResult at heq
      simp only [hcont, if_true] at heq
      split at heq
      · exact absurd heq (by simp)
      · exact processValidResult_ok_rw _ _ _ _ heq hr1get
  · rintro ⟨f, hf, hfrw, hfabs⟩
    have hfrr : f ≠ "rewrite_reason" := by
      intro h
      subst h
      exact absurd hf (by decide)
    -- the key is still missing after the possible fill
    have habs1 : ∀ d0, d0 = obj ∨
        d0 = dictSet (dictSet obj "rewritten_query" (.str q))
          "rewrite_reason" (.str "未进行改写") → dictHas d0 f = false := by
      rintro d0 (rfl | rfl)
      · exact hfabs
      · rw [dictHas_dictSet_ne _ _ _ _ hfrr, dictHas_dictSet_ne _ _ _ _ hfrw]
        exact hfabs
    unfold processDecodedResult
    by_cases hcont : (requiredFields.filter
        (fun f => !dictHas obj f)).contains "rewritten_query" = true
    · simp only [hcont, if_true]
      have hmem2 : f ∈ requiredFields.filter (fun g => !dictHas
          (dictSet (dictSet obj "rewritten_query" (.str q))
            "rewrite_reason" (.str "未进行改写")) g) :=
        List.mem_filter.mpr ⟨hf, by simp [habs1 _ (Or.inr rfl)]⟩
      have hne : (requiredFields.filter (fun g => !dictHas
          (dictSet (dictSet obj "rewritten_query" (.str q))
            "rewrite_reason" (.str "未进行改写")) g)).isEmpty = false := by
        rcases hx : requiredFields.filter (fun g => !dictHas
            (dictSet (dictSet obj "rewritten_query" (.str q))
              "rewrite_reason" (.str "未进行改写")) g) with _ | ⟨a, l⟩
        · rw [hx] at hmem2; exact absurd hmem2 (List.not_mem_nil f)
        · rfl
      rw [hne]
      exact ⟨⟨_, _, rfl⟩, fun r h => by simp at h⟩
    · simp only [Bool.not_eq_true] at hcont
      simp only [hcont, Bool.false_eq_true, if_false]
      have hmem2 : f ∈ requiredFields.filter (fun g => !dictHas obj g) :=
        List.mem_filter.mpr ⟨hf, by simp [hfabs]⟩
      have hne : (requiredFields.filter
          (fun g => !dictHas obj g)).isEmpty = false := by
        rcases hx : requiredFields.filter (fun g => !dictHas obj g)
          with _ | ⟨a, l⟩
        · rw [hx] at hmem2; exact absurd hmem2 (List.not_mem_nil f)
        · rfl
      rw [hne]
      exact ⟨⟨_, _, rfl⟩, fun r h => by simp at h⟩

/-- C8 witness:  A parsed object missing only `rewritten_query` gets it
filled with the original query; one also missing `confidence` is a failure
whose partial object still carries the filled rewritten query. -/
theorem c8_semantic_missing_keys_witness :
    (∀ e p, processDecodedResult "原始查询" false
        [("intent_type", .str "log_query"), ("time_range", .dict []),
         ("entities", .dict [("keywords", .list [])])] = .failure e (some p) →
      dictGet p "rewritten_query" = some (.str "原始查询")) ∧
    (∃ e p, processDecodedResult "原始查询" false
        [("intent_type", .str "log_query"), ("time_range", .dict []),
         ("entities", .dict [("keywords", .list [])])] =
          .failure e (some p)) ∧
    (∀ r, processDecodedResult "原始查询" false
        [("intent_type", .str "log_query"), ("time_range", .dict []),
         ("entities", .dict [("keywords", .list [])])] ≠ .ok r) :=
  ⟨(c8_semantic_missing_keys "原始查询" false
      [("intent_type", .str "log_query"), ("time_range", .dict []),
       ("entities", .dict [("keywords", .list [])])]).1 (by decide) |>.1,
   ((c8_semantic_missing_keys "原始查询" false
      [("intent_type", .str "log_query"), ("time_range", .dict []),
       ("entities", .dict [("keywords", .list [])])]).2
      ⟨"confidence", by decide, by decide, by decide⟩).1,
   ((c8_semantic_missing_keys "原始查询" false
      [("intent_type", .str "log_query"), ("time_range", .dict []),
       ("entities", .dict [("keywords", .list [])])]).2
      ⟨"confidence", by decide, by decide, by decide⟩).2⟩

/-- Helper: the retry loop makes at most `fuel` invocations. -/
theorem retryLoop_count_le {α : Type} (calls : Nat → CallResult α) :
    ∀ (fuel attempt : Nat), (retryLoop calls attempt fuel).2 ≤ fuel := by
  intro fuel
  induction fuel with
  | zero => intro attempt; simp [retryLoop]
  | succ fuel ih =>
      intro attempt
      unfold retryLoop
      cases calls attempt with
      | ret v => simp
      | exn m =>
          by_cases hr : isRateLimitError m = true
          · by_cases hf : fuel = 0
            · simp [hr, hf]
            · have := ih (attempt + 1)
              simp [hr, hf]
              omega
          · simp [hr]

/-- Helper: all-throttling calls exhaust the budget and re-raise the last
throttling error. -/
theorem retryLoop_throttle {α : Type} (calls : Nat → CallResult α) :
    ∀ (fuel attempt : Nat),
    (∀ j, j ≤ fuel → ∃ m, calls (attempt + j) = .exn m ∧
      isRateLimitError m = true) →
    ∃ m, calls (attempt + fuel) = .exn m ∧
      retryLoop calls attempt (fuel + 1) = (.raised m, fuel + 1) := by
  intro fuel
  induction fuel with
  | zero =>
      intro attempt h
      obtain ⟨m, hm, hrl⟩ := h 0 (by omega)
      rw [Nat.add_zero] at hm
      exact ⟨m, hm, by simp [retryLoop, hm, hrl]⟩
  | succ fuel ih =>
      intro attempt h
      obtain ⟨m0, hm0, hrl0⟩ := h 0 (by omega)
      rw [Nat.add_zero] at hm0
      obtain ⟨m, hm, hloop⟩ := ih (attempt + 1) (fun j hj => by
        obtain ⟨m1, hm1, hrl1⟩ := h (j + 1) (by omega)
        rw [show attempt + 1 + j = attempt + (j + 1) from by omega]
        exact ⟨m1, hm1, hrl1⟩)
      refine ⟨m, ?_, ?_⟩
      · rw [show attempt + (fuel + 1) = attempt + 1 + fuel from by omega]
        exact hm
      · unfold retryLoop
        rw [hm0]
        simp [hrl0, hloop]

/-- Helper: a prefix of `k` throttling calls is consumed by `k` loop
iterations, each adding one invocation. -/
theorem retryLoop_skip_throttle {α : Type} (calls : Nat → CallResult α) :
    ∀ (k attempt fuel : Nat),
    (∀ j, j < k → ∃ m, calls (attempt + j) = .exn m ∧
      isRateLimitError m = true) →
    k < fuel →
    retryLoop calls attempt fuel =
      ((retryLoop calls (attempt + k) (fuel - k)).1,
       (retryLoop calls (attempt + k) (fuel - k)).2 + k) := by
  intro k
  induction k with
  | zero =>
      intro attempt fuel h hk
      simp
  | succ k ih =>
      intro attempt fuel h hk
      obtain ⟨m0, hm0, hrl0⟩ := h 0 (by omega)
      rw [Nat.add_zero] at hm0
      cases fuel with
      | zero => omega
      | succ f =>
          have hf : f ≠ 0 := by omega
          have hrec := ih (attempt + 1) f
            (fun j hj => by
              obtain ⟨m1, hm1, hrl1⟩ := h (j + 1) (by omega)
              rw [show attempt + 1 + j = attempt + (j + 1) from by omega]
              exact ⟨m1, hm1, hrl1⟩)
            (by omega)
          have hstep : retryLoop calls attempt (f + 1) =
              ((retryLoop calls (attempt + 1) f).1,
               (retryLoop calls (attempt + 1) f).2 + 1) := by
            simp only [retryLoop]
            rw [hm0]
            simp [hrl0, hf]
          rw [hstep, hrec]
          have e1 : attempt + 1 + k = attempt + (k + 1) := by omega
          have e2 : f - k = f + 1 - (k + 1) := by omega
          rw [e1, e2]
          rfl

/-- C9:  The retry wrapper invokes the wrapped function at most
`max_retries + 1` times; a non-throttling exception at any attempt
position — that is, reached after any number of throttling retries —
propagates immediately, with no further invocation; all-throttling calls
re-raise the last throttling exception after exactly `max_retries + 1`
invocations; a success reached after a throttling prefix returns at once;
and the throttling recognition is a case-insensitive substring match on the
four phrases. -/
theorem c9_rate_limit_retry :
    (∀ (α : Type) (mr : Nat) (calls : Nat → CallResult α),
      (retryOnRateLimit mr calls).2 ≤ mr + 1) ∧
    (∀ (α : Type) (mr : Nat) (calls : Nat → CallResult α) (k : Nat)
      (m : String), k ≤ mr →
      (∀ j, j < k → ∃ m1, calls j = .exn m1 ∧ isRateLimitError m1 = true) →
      calls k = .exn m → isRateLimitError m = false →
      retryOnRateLimit mr calls = (.raised m, k + 1)) ∧
    (∀ (α : Type) (mr : Nat) (calls : Nat → CallResult α),
      (∀ j, j ≤ mr → ∃ m, calls j = .exn m ∧ isRateLimitError m = true) →
      ∃ m, calls mr = .exn m ∧
        retryOnRateLimit mr calls = (.raised m, mr + 1)) ∧
    (∀ (α : Type) (mr : Nat) (calls : Nat → CallResult α) (k : Nat) (v : α),
      k ≤ mr →
      (∀ j, j < k → ∃ m1, calls j = .exn m1 ∧ isRateLimitError m1 = true) →
      calls k = .ret v →
      retryOnRateLimit mr calls = (.ret v, k + 1)) ∧
    isRateLimitError "Error: Too Many Requests (429)" = true ∧
    isRateLimitError "ThrottlingException from Bedrock" = true ∧
    isRateLimitError "connection refused" = false := by
  refine ⟨?_, ?_, ?_, ?_, by decide, by decide, by decide⟩
  · intro α mr calls
    exact retryLoop_count_le calls (mr + 1) 0
  · intro α mr calls k m hk hpre hm hrl
    unfold retryOnRateLimit
    rw [retryLoop_skip_throttle calls k 0 (mr + 1)
      (fun j hj => by simpa using hpre j hj) (by omega)]
    rw [show (0 : Nat) + k = k from by omega,
      show mr + 1 - k = (mr - k) + 1 from by omega]
    simp only [retryLoop]
    rw [hm]
    simp [hrl, Nat.add_comm]
  · intro α mr calls h
    have := retryLoop_throttle calls mr 0 (fun j hj => by
      obtain ⟨m, hm, hrl⟩ := h j hj
      exact ⟨m, by simpa using hm, hrl⟩)
    obtain ⟨m, hm, hloop⟩ := this
    exact ⟨m, by simpa using hm, hloop⟩
  · intro α mr calls k v hk hpre hv
    unfold retryOnRateLimit
    rw [retryLoop_skip_throttle calls k 0 (mr + 1)
      (fun j hj => by simpa using hpre j hj) (by omega)]
    rw [show (0 : Nat) + k = k from by omega,
      show mr + 1 - k = (mr - k) + 1 from by omega]
    simp only [retryLoop]
    rw [hv]
    simp [Nat.add_comm]

/-- C9 witness:  Concrete runs: an immediate non-throttling error
propagates after one call; a non-throttling error on the third call, after
two throttling retries, propagates after exactly three calls (no further
retry); three all-throttling attempts with `max_retries = 2` raise after
exactly three calls; a success on the second call, after one throttling
retry, returns after exactly two calls. -/
theorem c9_rate_limit_retry_witness :
    retryOnRateLimit 3 (fun _ => (.exn "connection refused" : CallResult Nat)) =
      (.raised "connection refused", 1) ∧
    retryOnRateLimit 5 (fun n =>
      (if n < 2 then .exn "Rate Limit exceeded" else .exn "boom" :
        CallResult Nat)) = (.raised "boom", 3) ∧
    (∃ m, (fun _ => (.exn "rate limit exceeded" : CallResult Nat)) 2 =
        .exn m ∧
      retryOnRateLimit 2 (fun _ => (.exn "rate limit exceeded" : CallResult Nat)) =
        (.raised m, 3)) ∧
    retryOnRateLimit 3 (fun n =>
      (if n = 0 then .exn "throttling" else .ret 7 : CallResult Nat)) =
      (.ret 7, 2) :=
  ⟨c9_rate_limit_retry.2.1 Nat 3 _ 0 "connection refused" (by omega)
     (fun j hj => absurd hj (by omega)) rfl (by decide),
   c9_rate_limit_retry.2.1 Nat 5 _ 2 "boom" (by omega)
     (fun j hj => ⟨"Rate Limit exceeded", by simp [hj], by decide⟩)
     (by simp) (by decide),
   c9_rate_limit_retry.2.2.1 Nat 2 _
     (fun j _ => ⟨"rate limit exceeded", rfl, by decide⟩),
   c9_rate_limit_retry.2.2.2.1 Nat 3 _ 1 7 (by omega)
     (fun j hj => ⟨"throttling", by simp [Nat.lt_one_iff.mp hj], by decide⟩)
     (by simp)⟩

/-- Helper: the key just written is present. -/
theorem dictHas_dictSet_self (d : PyDict) (k : String) (v : PyVal) :
    dictHas (dictSet d k v) k = true := by
  induction d with
  | nil => simp [dictSet, dictHas]
  | cons p rest ih =>
      obtain ⟨k0, v0⟩ := p
      by_cases h0 : (k0 == k) = true
      · simp [dictSet, h0, dictHas]
      · simp [dictSet, h0, dictHas] at ih ⊢
        exact ih

/-- Helper: a fill-if-absent step keeps the values of present keys. -/
theorem fillStep_get (x : PyDict) (k : String) (v : PyVal) (k2 : String)
    (hk2 : dictHas x k2 = true) :
    dictGet (if dictHas x k then x else dictSet x k v) k2 = dictGet x k2 := by
  by_cases h : dictHas x k = true
  · simp [h]
  · have hne : k2 ≠ k := fun he => h (he ▸ hk2)
    simp only [h, Bool.false_eq_true, if_false]
    exact dictGet_dictSet_ne _ _ _ _ hne

/-- Helper: a fill-if-absent step keeps present keys present. -/
theorem fillStep_has (x : PyDict) (k : String) (v : PyVal) (k2 : String)
    (hk2 : dictHas x k2 = true) :
    dictHas (if dictHas x k then x else dictSet x k v) k2 = true := by
  by_cases h : dictHas x k = true
  · simpa [h] using hk2
  · have hne : k2 ≠ k := fun he => h (he ▸ hk2)
    simp only [h, Bool.false_eq_true, if_false]
    rw [dictHas_dictSet_ne _ _ _ _ hne]
    exact hk2

/-- Helper: a fill-if-absent step does not touch other keys' values. -/
theorem fillStep_get_ne (x : PyDict) (k : String) (v : PyVal) (k2 : String)
    (h : k2 ≠ k) :
    dictGet (if dictHas x k then x else dictSet x k v) k2 = dictGet x k2 := by
  split
  · rfl
  · exact dictGet_dictSet_ne _ _ _ _ h

/-- Helper: a fill-if-absent step does not touch other keys' presence. -/
theorem fillStep_has_ne (x : PyDict) (k : String) (v : PyVal) (k2 : String)
    (h : k2 ≠ k) :
    dictHas (if dictHas x k then x else dictSet x k v) k2 = dictHas x k2 := by
  split
  · rfl
  · exact dictHas_dictSet_ne _ _ _ _ h

/-- Helper: the hydration fills exactly the missing keys with their defaults
and keeps every present key's value. -/
theorem hydrateSemanticResult_spec (d : PyDict) :
    (dictHas d "time_range" = false →
      dictGet (hydrateSemanticResult d) "time_range" = some (.dict [])) ∧
    (dictHas d "entities" = false →
      dictGet (hydrateSemanticResult d) "entities" = some (.dict [])) ∧
    (dictHas d "intent_type" = false →
      dictGet (hydrateSemanticResult d) "intent_type" =
        some (.str "log_query")) ∧
    (∀ k, dictHas d k = true →
      dictGet (hydrateSemanticResult d) k = dictGet d k) := by
  simp only [hydrateSemanticResult]
  refine ⟨?_, ?_, ?_, ?_⟩
  · intro h
    rw [fillStep_get_ne _ _ _ _ (by decide), fillStep_get_ne _ _ _ _ (by decide),
      if_neg (by simp [h]), dictGet_dictSet_self]
  · intro h
    rw [fillStep_get_ne _ _ _ _ (by decide)]
    have h1 : dictHas (if dictHas d "time_range" then d
        else dictSet d "time_range" (.dict [])) "entities" = false := by
      rw [fillStep_has_ne _ _ _ _ (by decide)]
      exact h
    rw [if_neg (by simp [h1]), dictGet_dictSet_self]
  · intro h
    have h1 : dictHas (if dictHas d "time_range" then d
        else dictSet d "time_range" (.dict [])) "intent_type" = false := by
      rw [fillStep_has_ne _ _ _ _ (by decide)]
      exact h
    have h2 : dictHas (if dictHas (if dictHas d "time_range" then d
        else dictSet d "time_range" (.dict [])) "entities" then
          (if dictHas d "time_range" then d
            else dictSet d "time_range" (.dict []))
        else dictSet (if dictHas d "time_range" then d
          else dictSet d "time_range" (.dict [])) "entities" (.dict []))
        "intent_type" = false := by
      rw [fillStep_has_ne _ _ _ _ (by decide)]
      exact h1
    rw [if_neg (by simp [h2]), dictGet_dictSet_self]
  · intro k hk
    have h1 := fillStep_has d "time_range" (.dict []) k hk
    have h2 := fillStep_has _ "entities" (.dict []) k h1
    rw [fillStep_get _ "intent_type" (.str "log_query") k h2,
      fillStep_get _ "entities" (.dict []) k h1,
      fillStep_get _ "time_range" (.dict []) k hk]

/-- Helper: every `proceed` outcome of `query_logs` on a dict carries the
hydrated dict. -/
theorem queryLogs_proceed_shape (query : PyVal) (d0 : PyDict) (rw : PyVal)
    (d : PyDict) (h : queryLogs query (.dict d0) = .proceed rw d) :
    d = hydrateSemanticResult d0 := by
  unfold queryLogs at h
  repeat' split at h
  all_goals simp_all

/-- Helper: a bad parameter produces an early failure. -/
theorem queryLogs_fails_of_bad (query semanticResult : PyVal)
    (h : (queryParamBad query || semanticParamBad semanticResult) = true) :
    ∃ e, queryLogs query semanticResult = .paramFailure e := by
  cases query with
  | str s =>
      by_cases hps : pyStrip s = ""
      · by_cases hs : s = ""
        · subst hs
          exact ⟨"query参数必须是非空字符串", by simp [queryLogs, PyVal.truthy]⟩
        · exact ⟨"query参数不能为空", by simp [queryLogs, PyVal.truthy, hs, hps]⟩
      · have hsb : semanticParamBad semanticResult = true := by
          rcases Bool.or_eq_true_iff.mp h with hq | hsb
          · exact absurd hq (by simp [queryParamBad, hps])
          · exact hsb
        have hs : s ≠ "" := fun he => hps (by subst he; rfl)
        have hqt : (PyVal.str s).truthy = true := by simp [PyVal.truthy, hs]
        cases semanticResult with
        | dict d =>
            by_cases hemp : d.isEmpty = true
            · exact ⟨"semantic_result参数不能为空字典，必须包含有效的语义分析数据",
                by simp [queryLogs, hqt, hps, hemp]⟩
            · have hsb2 : d = [] ∨
                  (dictGetD d "success" (.bool true)).truthy = false := by
                simpa [semanticParamBad] using hsb
              have hsucc : (dictGetD d "success" (.bool true)).truthy = false := by
                rcases hsb2 with h1 | h1
                · exact absurd h1 (fun hd => hemp (by simp [hd]))
                · exact h1
              exact ⟨"语义分析结果无效，请先进行成功的语义分析",
                by simp [queryLogs, hqt, hps, hemp, hsucc]⟩
        | none => exact ⟨"semantic_result参数不能为None，请提供有效的语义分析结果",
            by simp [queryLogs, PyVal.truthy, hs, hps]⟩
        | bool b => exact ⟨"semantic_result参数必须是字典类型",
            by simp [queryLogs, PyVal.truthy, hs, hps]⟩
        | int n => exact ⟨"semantic_result参数必须是字典类型",
            by simp [queryLogs, PyVal.truthy, hs, hps]⟩
        | str s2 => exact ⟨"semantic_result参数必须是字典类型",
            by simp [queryLogs, PyVal.truthy, hs, hps]⟩
        | list l => exact ⟨"semantic_result参数必须是字典类型",
            by simp [queryLogs, PyVal.truthy, hs, hps]⟩
  | none => exact ⟨"query参数必须是非空字符串", by simp [queryLogs, PyVal.truthy]⟩
  | bool b =>
      cases b <;>
        exact ⟨"query参数必须是非空字符串", by simp [queryLogs, PyVal.truthy]⟩
  | int n =>
      by_cases hn : n = 0
      · subst hn
        exact ⟨"query参数必须是非空字符串", by simp [queryLogs, PyVal.truthy]⟩
      · exact ⟨"query参数必须是非空字符串", by simp [queryLogs, PyVal.truthy, hn]⟩
  | list l =>
      by_cases hl : l.isEmpty = true
      · exact ⟨"query参数必须是非空字符串", by simp [queryLogs, PyVal.truthy, hl]⟩
      · exact ⟨"query参数必须是非空字符串", by simp [queryLogs, PyVal.truthy, hl]⟩
  | dict d2 =>
      by_cases hl : d2.isEmpty = true
      · exact ⟨"query参数必须是非空字符串", by simp [queryLogs, PyVal.truthy, hl]⟩
      · exact ⟨"query参数必须是非空字符串", by simp [queryLogs, PyVal.truthy, hl]⟩

/-- Helper: good parameters reach the pipeline. -/
theorem queryLogs_proceeds_of_good (query semanticResult : PyVal)
    (h : (queryParamBad query || semanticParamBad semanticResult) = false) :
    ∃ rw d, queryLogs query semanticResult = .proceed rw d := by
  rw [Bool.or_eq_false_iff] at h
  obtain ⟨hq, hsr⟩ := h
  cases query with
  | str s =>
      have hps : pyStrip s ≠ "" := by
        intro he
        simp [queryParamBad, he] at hq
      have hs : s ≠ "" := fun he => hps (by subst he; rfl)
      have hqt : (PyVal.str s).truthy = true := by simp [PyVal.truthy, hs]
      cases semanticResult with
      | dict d =>
          have hsr2 : ¬d = [] ∧
              (dictGetD d "success" (.bool true)).truthy = true := by
            simpa [semanticParamBad] using hsr
          have hemp : d.isEmpty = false := by
            cases d with
            | nil => exact absurd rfl hsr2.1
            | cons p rest => rfl
          exact ⟨dictGetD d "rewritten_query" (.str (pyStrip s)),
            hydrateSemanticResult d,
            by simp [queryLogs, hqt, hps, hemp, hsr2.2]⟩
      | none => exact absurd hsr (by simp [semanticParamBad])
      | bool b => exact absurd hsr (by simp [semanticParamBad])
      | int n => exact absurd hsr (by simp [semanticParamBad])
      | str s2 => exact absurd hsr (by simp [semanticParamBad])
      | list l => exact absurd hsr (by simp [semanticParamBad])
  | none => exact absurd hq (by simp [queryParamBad])
  | bool b => exact absurd hq (by simp [queryParamBad])
  | int n => exact absurd hq (by simp [queryParamBad])
  | list l => exact absurd hq (by simp [queryParamBad])
  | dict d => exact absurd hq (by simp [queryParamBad])

/-- C10:  The entry point fails early exactly when the query is empty
after trimming or not a string, or `semantic_result` is `None`, not a dict,
an empty dict, or has a present-and-falsy `success` value (a missing
`success` defaults to true); otherwise the pipeline runs on the hydrated
semantic result: missing `time_range`/`entities`/`intent_type` are filled
with `{}`, `{}` and `"log_query"` while all present keys keep their
values. -/
theorem c10_query_logs_validation (query semanticResult : PyVal) :
    ((∃ e, queryLogs query semanticResult = .paramFailure e) ↔
      (queryParamBad query || semanticParamBad semanticResult) = true) ∧
    ((queryParamBad query || semanticParamBad semanticResult) = false →
      ∃ rw d, queryLogs query semanticResult = .proceed rw d) ∧
    (∀ rw d0 d, semanticResult = .dict d0 →
      queryLogs query semanticResult = .proceed rw d →
      (dictHas d0 "time_range" = false →
        dictGet d "time_range" = some (.dict [])) ∧
      (dictHas d0 "entities" = false →
        dictGet d "entities" = some (.dict [])) ∧
      (dictHas d0 "intent_type" = false →
        dictGet d "intent_type" = some (.str "log_query")) ∧
      (∀ k, dictHas d0 k = true → dictGet d k = dictGet d0 k)) := by
  refine ⟨⟨?_, queryLogs_fails_of_bad query semanticResult⟩,
    queryLogs_proceeds_of_good query semanticResult, ?_⟩
  · rintro ⟨e, he⟩
    by_contra hc
    rw [Bool.not_eq_true] at hc
    obtain ⟨rw, d, hp⟩ := queryLogs_proceeds_of_good query semanticResult hc
    rw [he] at hp
    exact QueryLogsOutcome.noConfusion hp
  · rintro rw d0 d rfl heq
    obtain rfl : d = hydrateSemanticResult d0 :=
      queryLogs_proceed_shape query d0 rw d heq
    have hs := hydrateSemanticResult_spec d0
    have hpres : ∀ k, dictHas d0 k = true →
        dictGet (hydrateSemanticResult d0) k = dictGet d0 k := hs.2.2.2
    exact ⟨hs.1, hs.2.1, hs.2.2.1, hpres⟩

/-- C10 witness:  A non-string query fails; a good query with a
semantic result that has no `success`, `time_range`, `entities` or
`intent_type` keys proceeds, with the three structural keys filled and the
present `rewritten_query` preserved. -/
theorem c10_query_logs_validation_witness :
    (∃ e, queryLogs (.int 5) (.dict [("rewritten_query", .str "q2")]) =
      .paramFailure e) ∧
    (∃ rw d, queryLogs (.str " 查询日志 ")
      (.dict [("rewritten_query", .str "q2")]) = .proceed rw d) ∧
    dictGet (hydrateSemanticResult [("rewritten_query", .str "q2")])
      "time_range" = some (.dict []) ∧
    dictGet (hydrateSemanticResult [("rewritten_query", .str "q2")])
      "entities" = some (.dict []) ∧
    dictGet (hydrateSemanticResult [("rewritten_query", .str "q2")])
      "intent_type" = some (.str "log_query") ∧
    (∀ k, dictHas [("rewritten_query", .str "q2")] k = true →
      dictGet (hydrateSemanticResult [("rewritten_query", .str "q2")]) k =
        dictGet [("rewritten_query", .str "q2")] k) :=
  ⟨(c10_query_logs_validation (.int 5)
      (.dict [("rewritten_query", .str "q2")])).1.mpr (by decide),
   (c10_query_logs_validation (.str " 查询日志 ")
      (.dict [("rewritten_query", .str "q2")])).2.1 (by decide),
   ((c10_query_logs_validation (.str " 查询日志 ")
      (.dict [("rewritten_query", .str "q2")])).2.2
     (.str "q2") [("rewritten_query", .str "q2")]
     (hydrateSemanticResult [("rewritten_query", .str "q2")]) rfl rfl).1
     (by decide),
   ((c10_query_logs_validation (.str " 查询日志 ")
      (.dict [("rewritten_query", .str "q2")])).2.2
     (.str "q2") [("rewritten_query", .str "q2")]
     (hydrateSemanticResult [("rewritten_query", .str "q2")]) rfl rfl).2.1
     (by decide),
   ((c10_query_logs_validation (.str " 查询日志 ")
      (.dict [("rewritten_query", .str "q2")])).2.2
     (.str "q2") [("rewritten_query", .str "q2")]
     (hydrateSemanticResult [("rewritten_query", .str "q2")]) rfl rfl).2.2.1
     (by decide),
   ((c10_query_logs_validation (.str " 查询日志 ")
      (.dict [("rewritten_query", .str "q2")])).2.2
     (.str "q2") [("rewritten_query", .str "q2")]
     (hydrateSemanticResult [("rewritten_query", .str "q2")]) rfl rfl).2.2.2⟩

end LogAnalytics
